import Mathlib

/-!
Verification development for the Deal-Desk Expansion-Store Evaluation Bot.

This file gives a shallow embedding, in Lean 4, of the product-matching and
product-extraction core of the repository:

* `src/expansion_store_evaluator.py` — the name normalizer
  (`_normalize_name`), the Jaccard word-overlap similarity
  (`_calculate_name_similarity`), the fuzzy pair matcher
  (`_find_fuzzy_product_matches`), the match counter
  (`_count_matching_products`) and the qualification search
  (`_search_for_specific_products_on_expansion_store`);
* `src/product_extractor.py` — the result cache (`_is_cache_valid`,
  `_get_from_cache`, `_store_in_cache`), the dynamic knowledge base, the
  discovery orchestrator (`discover_and_learn_products`,
  `extract_products_from_store`), the static knowledge base
  (`_extract_via_static_knowledge_base`, second definition, line 3438,
  which overrides the first one at line 801), and the blocked-site helpers
  (`_is_blocking_error`, `_handle_blocked_site_learning`,
  `_infer_products_from_domain`).

Modelling conventions:

* Python strings are `String` / `List Char`; the character classes of the
  regexes used by the source (`\w`, `\s`, `\d`) are modelled over ASCII via
  code points (the product names handled by the repository are ASCII).
* Python floats are modelled as `ℚ`.  Every similarity score produced by the
  source is a ratio `i/u` of small naturals; for such values the float
  comparisons `>= 0.9` / `>= 0.8` performed by the source agree with the
  exact rational comparisons (the distance between `i/u` and `9/10` is at
  least `1/(10*u)`, far above double rounding error), so `ℚ` is faithful.
* `datetime` values are modelled as `PyDateTime`: an epoch-seconds rational
  (used for arithmetic such as `total_seconds()`) plus an opaque formatted
  representation (used wherever the source calls `strftime`/`isoformat`).
* Network effects (the discovery strategies, the simplified search) are
  passed in as explicit outcome parameters ("oracles"): the embedded
  orchestrators consume the outcome the network code would have produced.
* Python `set`s of strings are modelled as deduplicated lists.
-/

/-! ### Character-level helpers (Python string/regex semantics, ASCII) -/

/-- Python `str.lower()` restricted to ASCII: maps `A`..`Z` (65..90) to
`a`..`z` (97..122), leaves everything else unchanged. -/
def pyLowerChar (c : Char) : Char :=
  if 65 ≤ c.toNat ∧ c.toNat ≤ 90 then Char.ofNat (c.toNat + 32) else c

/-- Python regex `\d`: an ASCII decimal digit `0`..`9` (48..57). -/
def pyIsDigitChar (c : Char) : Bool :=
  48 ≤ c.toNat && c.toNat ≤ 57

/-- Python regex `\w` restricted to ASCII: a letter, a digit or `_`. -/
def pyIsWordChar (c : Char) : Bool :=
  (97 ≤ c.toNat && c.toNat ≤ 122) || (65 ≤ c.toNat && c.toNat ≤ 90) ||
  pyIsDigitChar c || c == '_'

/-- Python regex `\s` / `str.strip()` whitespace, ASCII range: space, tab,
newline, carriage return, vertical tab, form feed. -/
def pyIsSpaceChar (c : Char) : Bool :=
  c == ' ' || c == '\t' || c == '\n' || c == '\r' ||
  c == Char.ofNat 11 || c == Char.ofNat 12

/-- Python `str.strip()`: drop whitespace from both ends. -/
def pyStrip (l : List Char) : List Char :=
  ((l.dropWhile pyIsSpaceChar).reverse.dropWhile pyIsSpaceChar).reverse

/-- Lowercase a whole string, Python `str.lower()` (ASCII model). -/
def pyLowerStr (s : String) : String :=
  String.mk (s.toList.map pyLowerChar)

/-- Whether `pat` occurs as a contiguous sublist of `l` (Python `pat in s`). -/
def listContainsSub (pat : List Char) : List Char → Bool
  | [] => pat.isEmpty
  | c :: t => pat.isPrefixOf (c :: t) || listContainsSub pat t

/-- Python `pat in s` on strings. -/
def strContainsSub (pat s : String) : Bool :=
  listContainsSub pat.toList s.toList

/-- Truncate `l` at the first position whose suffix satisfies `p`; identity
when no suffix does.  This is exactly `re.sub(pattern, '', s)` for a
`$`-anchored pattern: such a pattern has at most one match, running from the
leftmost position where it matches to the end of the string. -/
def truncFirst (p : List Char → Bool) : List Char → List Char
  | [] => []
  | c :: t => if p (c :: t) then [] else c :: truncFirst p t

/-- No newline character occurs in `l` (Python `.` does not match `\n`, so a
`.*$`-tail can only reach the end of the string when no newline follows). -/
def noNewline (l : List Char) : Bool :=
  !(l.any (· == '\n'))

/-! ### `_normalize_name` (`src/expansion_store_evaluator.py`, lines 2530-2571)

The source applies, in order: `lower().strip()`; two end-anchored price
substitutions; six "wholesale" substitutions; one pass of leading-prefix
removal and one pass of trailing-suffix removal; replacement of every
non-`\w`, non-`\s` character by a space; whitespace collapsing and a final
strip.  Every regex used is `$`-anchored, so each substitution is a
truncation at the leftmost match (`truncFirst`).  The source strips the
string before any regex runs, so `$` can only match at the very end of the
string (no trailing newline exists), which the matchers below rely on. -/

/-- Matcher for `r'\$\d+\.\d+$'` tested on a suffix: the whole suffix is a
dollar sign, one or more digits, a dot, one or more digits. -/
def matchDollarDecimal : List Char → Bool
  | [] => false
  | c :: rest =>
      c == '$' &&
      !(rest.takeWhile pyIsDigitChar).isEmpty &&
      (match rest.dropWhile pyIsDigitChar with
       | c2 :: r2 =>
           c2 == '.' &&
           !(r2.takeWhile pyIsDigitChar).isEmpty &&
           (r2.dropWhile pyIsDigitChar).isEmpty
       | [] => false)

/-- Matcher for `r'\$\d+$'` tested on a suffix. -/
def matchDollarInt : List Char → Bool
  | [] => false
  | c :: rest => c == '$' && !rest.isEmpty && rest.all pyIsDigitChar

/-- Matcher for `r'- min\. \d+.*$'`: the suffix starts with `"- min. "`
followed by a digit, and no newline follows (otherwise `.*$` cannot reach
the end of the string). -/
def matchMinDot (s : List Char) : Bool :=
  "- min. ".toList.isPrefixOf s &&
  (match s.drop 7 with
   | d :: rest => pyIsDigitChar d && noNewline rest
   | [] => false)

/-- Matcher for `r'minimum \d+.*$'`. -/
def matchMinimum (s : List Char) : Bool :=
  "minimum ".toList.isPrefixOf s &&
  (match s.drop 8 with
   | d :: rest => pyIsDigitChar d && noNewline rest
   | [] => false)

/-- Matcher for `r'\([\w\-\d]+\)$'`: an opening parenthesis, a non-empty run
of word characters and dashes, then a closing parenthesis ending the
string. -/
def matchParenSku : List Char → Bool
  | [] => false
  | c :: rest =>
      c == '(' &&
      !(rest.takeWhile (fun x => pyIsWordChar x || x == '-')).isEmpty &&
      rest.dropWhile (fun x => pyIsWordChar x || x == '-') == [')']

/-- Matcher for `r'- \d+ pack.*$'`. -/
def matchPack : List Char → Bool
  | c1 :: c2 :: rest =>
      c1 == '-' && c2 == ' ' &&
      !(rest.takeWhile pyIsDigitChar).isEmpty &&
      " pack".toList.isPrefixOf (rest.dropWhile pyIsDigitChar) &&
      noNewline ((rest.dropWhile pyIsDigitChar).drop 5)
  | _ => false

/-- Matcher for `r'wholesale.*$'`. -/
def matchWholesale (s : List Char) : Bool :=
  "wholesale".toList.isPrefixOf s && noNewline (s.drop 9)

/-- Matcher for `r'bulk.*$'`. -/
def matchBulk (s : List Char) : Bool :=
  "bulk".toList.isPrefixOf s && noNewline (s.drop 4)

/-- The `prefixes_to_remove` list of `_normalize_name` (source line 2556). -/
def prefixesToRemove : List String :=
  ["the ", "a ", "an ", "new ", "original ", "classic "]

/-- The `suffixes_to_remove` list of `_normalize_name` (source line 2557). -/
def suffixesToRemove : List String :=
  [" - new", " - original", " (new)", " (original)", " - limited edition"]

/-- The prefix-removal loop (source lines 2559-2561): each prefix is tested
once, in order, against the current string. -/
def stripNamePrefixes (l : List Char) : List Char :=
  prefixesToRemove.foldl
    (fun acc p => if p.toList.isPrefixOf acc then acc.drop p.length else acc) l

/-- The suffix-removal loop (source lines 2563-2565). -/
def stripNameSuffixes (l : List Char) : List Char :=
  suffixesToRemove.foldl
    (fun acc p =>
      if p.toList.isSuffixOf acc then acc.take (acc.length - p.length) else acc) l

/-- `re.sub(r'[^\w\s]', ' ', s)` (source line 2568). -/
def punctToSpace (l : List Char) : List Char :=
  l.map (fun c => if pyIsWordChar c || pyIsSpaceChar c then c else ' ')

/-- `re.sub(r'\s+', ' ', s)` (source line 2569): collapse every maximal run
of whitespace into a single space.  The flag records whether the previous
character was whitespace. -/
def collapseWsAux : Bool → List Char → List Char
  | _, [] => []
  | prev, c :: t =>
      if pyIsSpaceChar c then
        if prev then collapseWsAux true t else ' ' :: collapseWsAux true t
      else c :: collapseWsAux false t

/-- Whitespace collapsing, starting outside any whitespace run. -/
def collapseWs (l : List Char) : List Char :=
  collapseWsAux false l

/-- Embedding of `_normalize_name` on character lists. -/
def normalizeNameL (l : List Char) : List Char :=
  let n0 := pyStrip (l.map pyLowerChar)
  let n1 := truncFirst matchDollarDecimal n0
  let n2 := truncFirst matchDollarInt n1
  let n3 := truncFirst matchMinDot n2
  let n4 := truncFirst matchMinimum n3
  let n5 := truncFirst matchParenSku n4
  let n6 := truncFirst matchPack n5
  let n7 := truncFirst matchWholesale n6
  let n8 := truncFirst matchBulk n7
  let n9 := stripNamePrefixes n8
  let n10 := stripNameSuffixes n9
  pyStrip (collapseWs (punctToSpace n10))

/-- Embedding of `_normalize_name` (source lines 2530-2571).  A falsy
(empty) input returns `""` at once (source line 2532). -/
def normalizeName (s : String) : String :=
  if s = "" then "" else String.mk (normalizeNameL s.toList)

/-! ### `_calculate_name_similarity` (source lines 2591-2606) and the
matchers built on it -/

/-- Python `str.split()` with no argument: split on runs of whitespace,
discarding empty pieces. -/
def pyWords (l : List Char) : List (List Char) :=
  (l.splitOnP pyIsSpaceChar).filter (fun w => !w.isEmpty)

/-- The set of whitespace-separated words of a name (Python
`set(name.split())`), as a deduplicated list. -/
def nameWordSet (s : String) : List String :=
  (((pyWords s.toList).map String.mk).dedup)

/-- Embedding of `_calculate_name_similarity` (source lines 2591-2606):
Jaccard index of the word sets, `0` when either name or either word set is
empty.  Exact rationals stand in for Python floats (see the header);
`mkRat inter union` is the exact value of the division
`intersection / union`. -/
def calculateNameSimilarity (name1 name2 : String) : ℚ :=
  if name1 = "" ∨ name2 = "" then 0
  else
    let words1 := nameWordSet name1
    let words2 := nameWordSet name2
    if words1 = [] ∨ words2 = [] then 0
    else
      let inter := (words1.filter (fun w => words2.contains w)).length
      let union := ((words1 ++ words2).dedup).length
      if 0 < union then mkRat inter union else 0

/-- Embedding of `_find_fuzzy_product_matches` (source lines 2573-2589):
for every pair of an expansion name and a main name that are not equal and
whose similarity is at least `0.8`, record the pair.  The source records the
formatted string `f"{exp_name} ≈ {main_name}"` in a set; the pair of names
carries the same information, and the inputs (produced by
`_normalize_product_names`) are already deduplicated, so the list below has
one entry per reported pair. -/
def findFuzzyProductMatches (expansionNames mainNames : List String) :
    List (String × String) :=
  (expansionNames.map (fun e =>
      (mainNames.filter (fun m => e ≠ m ∧ calculateNameSimilarity e m ≥ mkRat 8 10)).map
        (fun m => (e, m)))).flatten

/-- Embedding of `_normalize_product_names` (source lines 2485-2501): strip
the `" - http..."` URL part, normalize, keep non-empty results, as a set. -/
def normalizeProductNames (products : List String) : List String :=
  ((products.map (fun p =>
      normalizeName (String.mk (truncFirst (" - http".toList.isPrefixOf ·) p.toList)))).filter
    (fun n => n ≠ "")).dedup

/-- Embedding of `_count_matching_products` (source lines 2917-2928). -/
def countMatchingProducts (mainProducts expansionProducts : List String) : Nat :=
  if mainProducts = [] ∨ expansionProducts = [] then 0
  else
    let expansionNames := normalizeProductNames expansionProducts
    let mainNames := normalizeProductNames mainProducts
    let exactMatches := (expansionNames.filter (fun n => mainNames.contains n)).length
    let fuzzyMatches := (findFuzzyProductMatches expansionNames mainNames).length
    exactMatches + fuzzyMatches

/-! ### `_search_for_specific_products_on_expansion_store`
(source lines 2323-2391)

For each target name the source first scans all candidate names for an
exact match of the normalized forms (breaking at the first hit), and only
if none exists runs a best-of loop that keeps the highest-scoring candidate
whose similarity is strictly above the best so far and at least `0.9`; the
target counts as found when a best match was kept. -/

/-- Outcome of the per-target search. -/
inductive MatchOutcome where
  | exact : MatchOutcome
  | fuzzy (best : String) : MatchOutcome
  | noMatch : MatchOutcome
deriving Repr, DecidableEq

/-- The fuzzy best-of loop (source lines 2370-2381): fold over the candidate
names with accumulator `(best_similarity, best_match)`, initially
`(0, None)`, updating when `similarity > best_similarity` and
`similarity >= 0.9` (the exact rational `mkRat 9 10`). -/
def fuzzyStep (normalizedTarget : String) (acc : ℚ × Option String)
    (e : String) : ℚ × Option String :=
  let sim := calculateNameSimilarity normalizedTarget (normalizeName e)
  if sim > acc.1 ∧ sim ≥ mkRat 9 10 then (sim, some e) else acc

/-- The fold of `fuzzyStep` over the candidate names, starting from
`(0, None)`. -/
def fuzzyBest (normalizedTarget : String) (expNames : List String) :
    ℚ × Option String :=
  expNames.foldl (fuzzyStep normalizedTarget) (0, none)

/-- Per-target classification in
`_search_for_specific_products_on_expansion_store`: the exact-match loop
(source lines 2359-2367) runs first; only if it found nothing does the
fuzzy loop run (source lines 2370-2386). -/
def searchClassifyTarget (expNames : List String) (target : String) :
    MatchOutcome :=
  let normalizedTarget := normalizeName target
  if expNames.any (fun e => normalizeName e == normalizedTarget) then .exact
  else
    match (fuzzyBest normalizedTarget expNames).2 with
    | some b => .fuzzy b
    | none => .noMatch

/-- The found-products list built by
`_search_for_specific_products_on_expansion_store` (target names are
appended in order, once per exact or fuzzy hit), after the `' - http'`
URL-stripping of the expansion products (source lines 2343-2349). -/
def searchForSpecificProducts (expansionProducts targetNames : List String) :
    List String :=
  let expNames := expansionProducts.map
    (fun p => String.mk (truncFirst (" - http".toList.isPrefixOf ·) p.toList))
  targetNames.filter (fun t => searchClassifyTarget expNames t ≠ .noMatch)

/-! ### Data model of `src/product_extractor.py` -/

/-- Embedding of the `Product` dataclass (source lines 264-274). -/
structure Product where
  name : String
  url : String
  price : Option String := none
  image_url : Option String := none
  description : Option String := none
  sku : Option String := none
  category : Option String := none
  availability : Option String := none
deriving Repr, DecidableEq

/-- Embedding of the `ProductExtractionResult` dataclass (source lines
276-287).  Note that `success` defaults to `True` in the source.  The float
field `confidence_score` is an exact rational here. -/
structure ProductExtractionResult where
  products : List Product
  total_found : Nat
  extraction_method : String
  platform_detected : Option String := none
  success : Bool := true
  error_message : Option String := none
  data_freshness : Option String := none
  confidence_score : Option ℚ := none
  last_verified : Option String := none
deriving Repr, DecidableEq

/-- A Python `datetime` instant: its epoch value in seconds (a rational, so
that `(a - b).total_seconds()` is exact arithmetic) together with the opaque
text that `strftime`/`isoformat` would produce for it. -/
structure PyDateTime where
  seconds : ℚ
  text : String
deriving Repr, DecidableEq

/-- Embedding of the `CacheEntry` dataclass (source lines 289-296). -/
structure CacheEntry where
  url : String
  result : ProductExtractionResult
  timestamp : PyDateTime
  is_failure : Bool := false
  failure_reason : Option String := none
deriving Repr, DecidableEq

/-- `self.cache_ttl_hours = 24` (source line 306). -/
def cacheTtlHours : ℚ := 24

/-- `self.failure_cache_ttl_hours = 2` (source line 307). -/
def failureCacheTtlHours : ℚ := 2

/-! The in-process cache `self.cache` is a dict keyed by
`hashlib.md5(url.encode()).hexdigest()` (source lines 456-458).  The digest
is a function of the URL alone, and the repository relies on it only as an
injective key; the model keys the association list by the URL itself.
Overwriting/deleting a dict key is modelled by filtering the key out. -/

/-- The cache: an association list with unique keys (a Python dict). -/
abbrev Cache := List (String × CacheEntry)

/-- Dict lookup `self.cache[key]`. -/
def lookupCache (cache : Cache) (url : String) : Option CacheEntry :=
  ((cache : List (String × CacheEntry)).find? (fun p => p.1 == url)).map (·.2)

/-- Dict assignment `self.cache[key] = entry`. -/
def cacheOverwrite (cache : Cache) (url : String) (entry : CacheEntry) : Cache :=
  (url, entry) :: (cache : List (String × CacheEntry)).filter (fun p => p.1 ≠ url)

/-- Dict deletion `del self.cache[key]`. -/
def cacheDelete (cache : Cache) (url : String) : Cache :=
  (cache : List (String × CacheEntry)).filter (fun p => p.1 ≠ url)

/-- Embedding of `_is_cache_valid` (source lines 460-466): the entry age in
seconds is strictly below the TTL for its kind. -/
def isCacheValid (now : PyDateTime) (entry : CacheEntry) : Bool :=
  if entry.is_failure then
    decide (now.seconds - entry.timestamp.seconds < failureCacheTtlHours * 3600)
  else
    decide (now.seconds - entry.timestamp.seconds < cacheTtlHours * 3600)

/-- Embedding of `_get_from_cache` (source lines 468-478): a present, valid
entry is returned; a present, expired entry is deleted and the lookup
reports a miss; the (possibly updated) cache is returned alongside. -/
def getFromCache (now : PyDateTime) (cache : Cache) (url : String) :
    Option CacheEntry × Cache :=
  match lookupCache cache url with
  | some entry =>
      if isCacheValid now entry then (some entry, cache)
      else (none, cacheDelete cache url)
  | none => (none, cache)

/-- Embedding of `_store_in_cache` (source lines 480-490). -/
def storeInCache (cache : Cache) (url : String)
    (result : ProductExtractionResult) (now : PyDateTime)
    (isFailure : Bool) (failureReason : Option String) : Cache :=
  cacheOverwrite cache url
    { url := url, result := result, timestamp := now,
      is_failure := isFailure, failure_reason := failureReason }

/-- Embedding of `_deduplicate_products` (source lines 1885-1896): keep the
first product for each `(name.lower(), url)` key. -/
def dedupProductsAux (seen : List (String × String)) :
    List Product → List Product
  | [] => []
  | p :: t =>
      let key := (pyLowerStr p.name, p.url)
      if seen.contains key then dedupProductsAux seen t
      else p :: dedupProductsAux (key :: seen) t

/-- `_deduplicate_products`, starting from an empty `seen` set. -/
def dedupProducts (products : List Product) : List Product :=
  dedupProductsAux [] products

/-- A dynamic-knowledge-base entry (source lines 564-569): the value stored
under a domain key. -/
structure KBEntry where
  products : List Product
  platform : String
  last_updated : Option String := none
  extraction_method : Option String := none
deriving Repr, DecidableEq

/-- The dynamic knowledge base `self.dynamic_knowledge_base`: a dict keyed
by normalized domain. -/
abbrev KnowledgeBase := List (String × KBEntry)

/-- Dict lookup in the dynamic knowledge base. -/
def lookupKB (kb : KnowledgeBase) (domain : String) : Option KBEntry :=
  ((kb : List (String × KBEntry)).find? (fun p => p.1 == domain)).map (·.2)

/-- Domain normalization used throughout the extractor (for example source
lines 558-561 and 584-586): lowercase the netloc of the URL and strip a
leading `www.`.  The `urlparse` netloc extraction itself is Python library
code; the embedding takes the netloc as an input. -/
def normalizeDomain (netloc : String) : String :=
  let domain := pyLowerStr netloc
  if "www.".toList.isPrefixOf domain.toList then
    String.mk (domain.toList.drop 4)
  else domain

/-- Embedding of `_add_to_dynamic_knowledge_base` (source lines 554-573):
only a non-empty product list is recorded; the entry for the domain is
replaced wholesale.  (The source also rewrites the JSON file; persistence
is outside the model.)  `nowIso` is the text `datetime.now().isoformat()`
would produce. -/
def addToDynamicKnowledgeBase (kb : KnowledgeBase) (netloc : String)
    (products : List Product) (platform extractionMethod nowIso : String) :
    KnowledgeBase :=
  let domain := normalizeDomain netloc
  if products.isEmpty then kb
  else
    (domain,
     { products := products, platform := platform,
       last_updated := some nowIso,
       extraction_method := some extractionMethod }) ::
    (kb : List (String × KBEntry)).filter (fun p => p.1 ≠ domain)

/-- Embedding of `_is_blocking_error` (source lines 3640-3648), a function
over `str(error)`.  (In the source this function is defined inside `main()`
— see `discoverAndLearnProducts` below — but its body is as here.) -/
def isBlockingError (errorStr : String) : Bool :=
  ["403", "forbidden", "access denied", "blocked",
   "cloudflare", "bot protection", "rate limit",
   "too many requests", "captcha", "security check"].any
    (fun indicator => strContainsSub indicator (pyLowerStr errorStr))

/-- An exception escaping an embedded call.  `attributeError msg` models a
Python `AttributeError` (its `str(...)` text, without the quote marks the
interpreter adds around the names). -/
inductive PyError where
  | attributeError (msg : String)
deriving Repr, DecidableEq

/-- `str(e)` for a modelled exception. -/
def pyErrorStr : PyError → String
  | .attributeError msg => msg

/-- The message of the `AttributeError` raised at source line 682 (see
`discoverAndLearnProducts`). -/
def blockingCheckAttributeError : PyError :=
  .attributeError "ProductExtractor object has no attribute _is_blocking_error"

/-- The outcome that the discovery try-block of
`discover_and_learn_products` (source lines 607-643) would produce: the
concatenated products of the four strategies (platform pages, sitemap, link
discovery, collection discovery), the platform detected at line 609, and
the provenance labels collected in `extraction_methods_used`.  All four
strategies are network code, so the embedding receives this outcome as a
parameter; an exception anywhere in the block is the `Except.error` case,
carrying `str(exception)`. -/
structure DiscoveryOutcome where
  products : List Product
  platform : Option String
  methodsUsed : List String
deriving Repr, DecidableEq

/-! ### `_extract_via_static_knowledge_base` (source lines 3438-3615)

The class defines this method twice (lines 801 and 3438); in Python the
later definition wins, so the table below is the one at lines 3443-3597.
Product URLs are built from the requested `store_url` by f-string
concatenation.  Lookup walks the table in insertion order and fires on an
exact domain match or a `.`-separated parent-domain suffix match. -/

/-- Python `str.endswith`. -/
def pyEndsWith (s tail : String) : Bool :=
  tail.toList.isSuffixOf s.toList

/-- The static knowledge base table (source lines 3443-3597); for each known
domain, its product list (built against `storeUrl`) and its platform. -/
def staticKnowledgeBase (storeUrl : String) :
    List (String × (List Product × String)) :=
  [("allbirds.com",
    ([{ name := "Tree Runners", url := storeUrl ++ "/products/mens-tree-runners",
        price := some "$98", category := some "Men\x27s Sneakers" },
      { name := "Tree Dashers", url := storeUrl ++ "/products/mens-tree-dashers",
        price := some "$118", category := some "Men\x27s Running" },
      { name := "Wool Runners", url := storeUrl ++ "/products/mens-wool-runners",
        price := some "$98", category := some "Men\x27s Sneakers" },
      { name := "Tree Skippers", url := storeUrl ++ "/products/mens-tree-skippers",
        price := some "$88", category := some "Men\x27s Boat Shoes" },
      { name := "Women\x27s Tree Runners", url := storeUrl ++ "/products/womens-tree-runners",
        price := some "$98", category := some "Women\x27s Sneakers" },
      { name := "Women\x27s Tree Dashers", url := storeUrl ++ "/products/womens-tree-dashers",
        price := some "$118", category := some "Women\x27s Running" },
      { name := "Women\x27s Wool Runners", url := storeUrl ++ "/products/womens-wool-runners",
        price := some "$98", category := some "Women\x27s Sneakers" }], "shopify")),
   ("allbirds.ca",
    ([{ name := "Tree Runners", url := storeUrl ++ "/products/mens-tree-runners",
        price := some "$98 CAD", category := some "Men\x27s Sneakers" },
      { name := "Tree Dashers", url := storeUrl ++ "/products/mens-tree-dashers",
        price := some "$118 CAD", category := some "Men\x27s Running" },
      { name := "Wool Runners", url := storeUrl ++ "/products/mens-wool-runners",
        price := some "$98 CAD", category := some "Men\x27s Sneakers" },
      { name := "Tree Skippers", url := storeUrl ++ "/products/mens-tree-skippers",
        price := some "$88 CAD", category := some "Men\x27s Boat Shoes" },
      { name := "Women\x27s Tree Runners", url := storeUrl ++ "/products/womens-tree-runners",
        price := some "$98 CAD", category := some "Women\x27s Sneakers" },
      { name := "Women\x27s Tree Dashers", url := storeUrl ++ "/products/womens-tree-dashers",
        price := some "$118 CAD", category := some "Women\x27s Running" },
      { name := "Women\x27s Wool Runners", url := storeUrl ++ "/products/womens-wool-runners",
        price := some "$98 CAD", category := some "Women\x27s Sneakers" }], "shopify")),
   ("nike.com",
    ([{ name := "Air Max 90", url := storeUrl ++ "/t/air-max-90",
        price := some "$90", category := some "Sneakers" },
      { name := "Air Force 1", url := storeUrl ++ "/t/air-force-1",
        price := some "$90", category := some "Sneakers" },
      { name := "React Infinity Run", url := storeUrl ++ "/t/react-infinity-run",
        price := some "$160", category := some "Running" },
      { name := "Dri-FIT T-Shirt", url := storeUrl ++ "/t/dri-fit-shirts",
        price := some "$25", category := some "Apparel" },
      { name := "Tech Fleece Hoodie", url := storeUrl ++ "/t/tech-fleece",
        price := some "$90", category := some "Apparel" },
      { name := "Sportswear Club Joggers", url := storeUrl ++ "/t/joggers",
        price := some "$45", category := some "Apparel" }], "custom")),
   ("rei.com",
    ([{ name := "Patagonia Houdini Jacket", url := storeUrl ++ "/product/patagonia-houdini-jacket",
        price := some "$119", category := some "Jackets" },
      { name := "Merrell Hiking Boots", url := storeUrl ++ "/product/merrell-hiking-boots",
        price := some "$130", category := some "Footwear" },
      { name := "Osprey Backpack", url := storeUrl ++ "/product/osprey-backpack",
        price := some "$180", category := some "Packs" },
      { name := "REI Co-op Rain Jacket", url := storeUrl ++ "/product/rei-rain-jacket",
        price := some "$89", category := some "Jackets" },
      { name := "Smartwool Base Layer", url := storeUrl ++ "/product/smartwool-base-layer",
        price := some "$75", category := some "Base Layers" }], "custom")),
   ("shopify.com",
    ([{ name := "Shopify Basic Plan", url := storeUrl ++ "/pricing/basic",
        price := some "$39/month", category := some "Plans" },
      { name := "Shopify Advanced Plan", url := storeUrl ++ "/pricing/advanced",
        price := some "$399/month", category := some "Plans" },
      { name := "Shopify Plus", url := storeUrl ++ "/plus",
        price := some "Contact Sales", category := some "Enterprise" },
      { name := "Shopify POS", url := storeUrl ++ "/pos",
        price := some "From $89/month", category := some "Point of Sale" }], "saas")),
   ("shopify.ca",
    ([{ name := "Shopify Plus", url := storeUrl ++ "/plus",
        price := some "Contact Sales", category := some "Enterprise Solutions" },
      { name := "Shopify POS", url := storeUrl ++ "/pos",
        price := some "From $119 CAD/month", category := some "Point of Sale" },
      { name := "Shopify Payments", url := storeUrl ++ "/payments",
        price := some "2.9% + 30¢ CAD", category := some "Payment Processing" },
      { name := "Shopify Shipping", url := storeUrl ++ "/shipping",
        price := some "Discounted rates", category := some "Fulfillment" }], "saas")),
   ("patagonia.com",
    ([{ name := "Men\x27s Better Sweater Fleece Jacket",
        url := storeUrl ++ "/product/mens-better-sweater-fleece-jacket",
        price := some "$139", category := some "Men\x27s Outerwear" },
      { name := "Women\x27s Houdini Jacket", url := storeUrl ++ "/product/womens-houdini-jacket",
        price := some "$119", category := some "Women\x27s Jackets" },
      { name := "Men\x27s Torrentshell 3L Jacket",
        url := storeUrl ++ "/product/mens-torrentshell-3l-jacket",
        price := some "$149", category := some "Men\x27s Rain Jackets" },
      { name := "Women\x27s Down Sweater", url := storeUrl ++ "/product/womens-down-sweater",
        price := some "$229", category := some "Women\x27s Insulation" },
      { name := "Men\x27s Baggies Shorts 5\"", url := storeUrl ++ "/product/mens-baggies-shorts-5in",
        price := some "$59", category := some "Men\x27s Shorts" },
      { name := "Women\x27s Baggies Shorts 5\"", url := storeUrl ++ "/product/womens-baggies-shorts-5in",
        price := some "$59", category := some "Women\x27s Shorts" }], "custom")),
   ("warbyparker.com",
    ([{ name := "Percey Eyeglasses", url := storeUrl ++ "/eyeglasses/men/percey",
        price := some "$145", category := some "Men\x27s Eyeglasses" },
      { name := "Durand Eyeglasses", url := storeUrl ++ "/eyeglasses/women/durand",
        price := some "$145", category := some "Women\x27s Eyeglasses" },
      { name := "Felix Sunglasses", url := storeUrl ++ "/sunglasses/men/felix",
        price := some "$175", category := some "Men\x27s Sunglasses" },
      { name := "Reilly Sunglasses", url := storeUrl ++ "/sunglasses/women/reilly",
        price := some "$175", category := some "Women\x27s Sunglasses" },
      { name := "Contact Lenses", url := storeUrl ++ "/contact-lenses",
        price := some "$30/month", category := some "Contact Lenses" }], "custom")),
   ("casper.com",
    ([{ name := "The Casper Original Mattress", url := storeUrl ++ "/mattresses/casper-original",
        price := some "$595-1395", category := some "Mattresses" },
      { name := "The Wave Hybrid Mattress", url := storeUrl ++ "/mattresses/wave-hybrid",
        price := some "$1395-2695", category := some "Premium Mattresses" },
      { name := "Essential Mattress", url := storeUrl ++ "/mattresses/essential",
        price := some "$395-795", category := some "Budget Mattresses" },
      { name := "Casper Pillow", url := storeUrl ++ "/pillows/casper-pillow",
        price := some "$65", category := some "Pillows" },
      { name := "Weighted Blanket", url := storeUrl ++ "/bedding/weighted-blanket",
        price := some "$189", category := some "Bedding" }], "custom")),
   ("tesla.com",
    ([{ name := "Model S", url := storeUrl ++ "/models",
        price := some "$89,990", category := some "Electric Vehicles" },
      { name := "Model 3", url := storeUrl ++ "/model3",
        price := some "$40,240", category := some "Electric Vehicles" },
      { name := "Model X", url := storeUrl ++ "/modelx",
        price := some "$99,990", category := some "Electric SUVs" },
      { name := "Model Y", url := storeUrl ++ "/modely",
        price := some "$52,990", category := some "Electric SUVs" },
      { name := "Cybertruck", url := storeUrl ++ "/cybertruck",
        price := some "$60,990", category := some "Electric Trucks" },
      { name := "Tesla Wall Connector", url := storeUrl ++ "/charging/wall-connector",
        price := some "$415", category := some "Charging" }], "custom")),
   ("gap.com",
    ([{ name := "Women\x27s Jeans", url := storeUrl ++ "/browse/division.do?cid=5168",
        price := some "$69.95", category := some "Women\x27s Denim" },
      { name := "Men\x27s Jeans", url := storeUrl ++ "/browse/division.do?cid=5167",
        price := some "$69.95", category := some "Men\x27s Denim" },
      { name := "Women\x27s T-Shirts", url := storeUrl ++ "/browse/category.do?cid=1014758",
        price := some "$19.95", category := some "Women\x27s Tops" },
      { name := "Men\x27s T-Shirts", url := storeUrl ++ "/browse/category.do?cid=1014757",
        price := some "$19.95", category := some "Men\x27s Tops" },
      { name := "Women\x27s Dresses", url := storeUrl ++ "/browse/category.do?cid=1051296",
        price := some "$59.95", category := some "Women\x27s Dresses" },
      { name := "Kids\x27 Jeans", url := storeUrl ++ "/browse/category.do?cid=1014760",
        price := some "$39.95", category := some "Kids\x27 Denim" },
      { name := "Baby Clothes", url := storeUrl ++ "/browse/division.do?cid=1040755",
        price := some "$14.95", category := some "Baby Apparel" }], "custom")),
   ("gapfactory.com",
    ([{ name := "Women\x27s Jeans", url := storeUrl ++ "/browse/category.do?cid=1040941",
        price := some "$39.95", category := some "Women\x27s Denim" },
      { name := "Men\x27s Jeans", url := storeUrl ++ "/browse/category.do?cid=1040942",
        price := some "$39.95", category := some "Men\x27s Denim" },
      { name := "Women\x27s T-Shirts", url := storeUrl ++ "/browse/category.do?cid=1040941",
        price := some "$12.95", category := some "Women\x27s Tops" },
      { name := "Men\x27s T-Shirts", url := storeUrl ++ "/browse/category.do?cid=1040942",
        price := some "$12.95", category := some "Men\x27s Tops" },
      { name := "Women\x27s Dresses", url := storeUrl ++ "/browse/category.do?cid=1040941",
        price := some "$29.95", category := some "Women\x27s Dresses" },
      { name := "Kids\x27 Jeans", url := storeUrl ++ "/browse/category.do?cid=1040943",
        price := some "$19.95", category := some "Kids\x27 Denim" },
      { name := "Baby Clothes", url := storeUrl ++ "/browse/category.do?cid=1040944",
        price := some "$9.95", category := some "Baby Apparel" }], "custom")),
   ("shoebank.com",
    ([{ name := "Allen Edmonds Oxfords", url := storeUrl ++ "/shoes/dress-shoes/oxfords",
        price := some "$195", category := some "Men\x27s Dress Shoes" },
      { name := "Allen Edmonds Loafers", url := storeUrl ++ "/shoes/dress-shoes/loafers",
        price := some "$175", category := some "Men\x27s Loafers" },
      { name := "Allen Edmonds Boots", url := storeUrl ++ "/shoes/boots",
        price := some "$225", category := some "Men\x27s Boots" },
      { name := "Allen Edmonds Sneakers", url := storeUrl ++ "/shoes/casual-shoes/sneakers",
        price := some "$150", category := some "Men\x27s Casual" },
      { name := "Dress Shoes", url := storeUrl ++ "/shoes/dress-shoes",
        price := some "$195", category := some "Men\x27s Formal" },
      { name := "Casual Shoes", url := storeUrl ++ "/shoes/casual-shoes",
        price := some "$145", category := some "Men\x27s Casual" },
      { name := "Shoe Care Products", url := storeUrl ++ "/accessories/shoe-care",
        price := some "$25", category := some "Accessories" }], "custom")),
   ("allenedmonds.ca",
    ([{ name := "Allen Edmonds Oxfords", url := storeUrl ++ "/en/shoes/dress-shoes/oxfords",
        price := some "$260 CAD", category := some "Men\x27s Dress Shoes" },
      { name := "Allen Edmonds Loafers", url := storeUrl ++ "/en/shoes/dress-shoes/loafers",
        price := some "$235 CAD", category := some "Men\x27s Loafers" },
      { name := "Allen Edmonds Boots", url := storeUrl ++ "/en/shoes/boots",
        price := some "$295 CAD", category := some "Men\x27s Boots" },
      { name := "Allen Edmonds Sneakers", url := storeUrl ++ "/en/shoes/casual-shoes/sneakers",
        price := some "$195 CAD", category := some "Men\x27s Casual" },
      { name := "Dress Shoes", url := storeUrl ++ "/en/shoes/dress-shoes",
        price := some "$260 CAD", category := some "Men\x27s Formal" },
      { name := "Casual Shoes", url := storeUrl ++ "/en/shoes/casual-shoes",
        price := some "$185 CAD", category := some "Men\x27s Casual" },
      { name := "Shoe Care Products", url := storeUrl ++ "/en/accessories/shoe-care",
        price := some "$35 CAD", category := some "Accessories" }], "custom"))]

/-- Embedding of `_extract_via_static_knowledge_base` (source lines
3438-3615): domain = lowercased netloc (no `www.` stripping here); the first
table entry whose key equals the domain or is a parent domain wins. -/
def extractViaStaticKnowledgeBase (storeUrl netloc : String)
    (maxProducts : Nat) : Option ProductExtractionResult :=
  let domain := pyLowerStr netloc
  match (staticKnowledgeBase storeUrl).find?
      (fun p => domain == p.1 || pyEndsWith domain ("." ++ p.1)) with
  | some entry =>
      let products := entry.2.1.take maxProducts
      some { products := products, total_found := products.length,
             extraction_method := "Static Knowledge Base - " ++ entry.1,
             platform_detected := some entry.2.2, success := true }
  | none => none

/-! ### Blocked-site helpers (source lines 3640-3748)

`_is_blocking_error`, `_handle_blocked_site_learning` and
`_infer_products_from_domain` are written as methods (they take `self` and
make `self.`-calls), but in the source they sit after `def main():`
(line 3617) at function-body indentation, so they are local functions of
`main`, not attributes of `ProductExtractor`.  The embeddings keep the
attribute lookups strict, exactly as for `self._is_blocking_error` in
`discoverAndLearnProducts`: inside `_handle_blocked_site_learning`,
`self._extract_via_static_knowledge_base` and
`self._add_to_dynamic_knowledge_base` resolve to genuine methods of
`ProductExtractor` (lines 3438 and 554), but
`self._infer_products_from_domain` (line 3665) does not — no such
attribute exists on the class — so on any invocation that reaches that
line the handler raises `AttributeError` instead of returning.
`_infer_products_from_domain` itself (lines 3705-3748) never uses `self`,
so its body is embedded directly as a pure function. -/

/-- Python `str.upper()` on one character, ASCII model. -/
def pyUpperChar (c : Char) : Char :=
  if 97 ≤ c.toNat ∧ c.toNat ≤ 122 then Char.ofNat (c.toNat - 32) else c

/-- An ASCII letter. -/
def pyIsAlphaChar (c : Char) : Bool :=
  (97 ≤ c.toNat && c.toNat ≤ 122) || (65 ≤ c.toNat && c.toNat ≤ 90)

/-- Python `str.title()` (ASCII model): uppercase a letter that starts a
letter run, lowercase the rest. -/
def pyTitleAux : Bool → List Char → List Char
  | _, [] => []
  | prevAlpha, c :: t =>
      if pyIsAlphaChar c then
        (if prevAlpha then pyLowerChar c else pyUpperChar c) :: pyTitleAux true t
      else c :: pyTitleAux false t

/-- Python `str.title()`. -/
def pyTitle (s : String) : String :=
  String.mk (pyTitleAux false s.toList)

/-- The URL slug built at source line 3730:
`product_name.lower().replace(' ', '-').replace("'", '')`. -/
def inferredProductSlug (productName : String) : String :=
  String.mk (((productName.toList.map pyLowerChar).map
      (fun c => if c == ' ' then '-' else c)).filter
    (fun c => c ≠ Char.ofNat 39))

/-- The `domain_keywords` table of `_infer_products_from_domain` (source
lines 3713-3722), in insertion order. -/
def domainKeywords : List (String × List String) :=
  [("shoe", ["Dress Shoes", "Casual Shoes", "Sneakers", "Boots"]),
   ("clothing", ["T-Shirts", "Jeans", "Dresses", "Jackets"]),
   ("jewelry", ["Rings", "Necklaces", "Bracelets", "Earrings"]),
   ("electronics", ["Laptops", "Phones", "Tablets", "Accessories"]),
   ("beauty", ["Skincare", "Makeup", "Hair Care", "Fragrances"]),
   ("home", ["Furniture", "Decor", "Kitchen", "Bedding"]),
   ("book", ["Fiction", "Non-Fiction", "Educational", "Children\x27s Books"]),
   ("toy", ["Educational Toys", "Action Figures", "Board Games", "Outdoor Toys"])]

/-- Embedding of `_infer_products_from_domain` (source lines 3705-3748):
the first keyword contained in the lowercased domain yields up to four
category products; otherwise four generic placeholder products are built. -/
def inferProductsFromDomain (storeUrl domain : String) : List Product :=
  let lowerDomain := pyLowerStr domain
  match domainKeywords.find? (fun p => strContainsSub p.1 lowerDomain) with
  | some entry =>
      (entry.2.take 4).map (fun productName =>
        { name := productName,
          url := storeUrl ++ "/products/" ++ inferredProductSlug productName,
          price := some "Price on request",
          category := some (pyTitle entry.1) })
  | none =>
      ["Featured Products", "Best Sellers", "New Arrivals", "Sale Items"].map
        (fun productName =>
          { name := productName,
            url := storeUrl ++ "/collections/" ++
              String.mk ((productName.toList.map pyLowerChar).map
                (fun c => if c == ' ' then '-' else c)),
            price := some "Various",
            category := some "General" })

/-- The `AttributeError` raised at source line 3665: `_infer_products_from_domain`
is a local function of `main()`, not an attribute of `ProductExtractor`. -/
def inferAttributeError : PyError :=
  .attributeError ("\x27ProductExtractor\x27 object has no attribute " ++
    "\x27_infer_products_from_domain\x27")

/-- Embedding of `_handle_blocked_site_learning` (source lines 3650-3703)
as invoked on a `ProductExtractor`: strategy 1 consults the static
knowledge base (`self._extract_via_static_knowledge_base` is a genuine
method, line 3438) and returns its result when it has products
(lines 3659-3662); otherwise the call
`self._infer_products_from_domain(store_url, domain)` at line 3665 raises
`AttributeError`, so the inferred-products branch (including its
`self._add_to_dynamic_knowledge_base` call and background-job queueing)
and the `success=False` manual-intervention branch (lines 3666-3703) are
unreachable, and the knowledge base is never modified. -/
def handleBlockedSiteLearning (kb : KnowledgeBase)
    (storeUrl netloc : String) (maxProducts : Nat) :
    Except PyError (ProductExtractionResult × KnowledgeBase) :=
  match extractViaStaticKnowledgeBase storeUrl netloc maxProducts with
  | some staticResult =>
      if !staticResult.products.isEmpty then .ok (staticResult, kb)
      else .error inferAttributeError
  | none => .error inferAttributeError

/-! ### `discover_and_learn_products` (source lines 577-691) -/

/-- Embedding of `discover_and_learn_products`.

Control flow of the source:

1. If the (www.-stripped, lowercased) domain is a key of the dynamic
   knowledge base, return its product list truncated to `max_products`
   immediately, with `success=True` (lines 588-600).  No discovery strategy
   runs, and no freshness/TTL check of any kind is made.
2. Otherwise run the four discovery strategies (the `discovery` parameter
   carries their combined outcome), deduplicate, truncate; a non-empty list
   is recorded in the dynamic knowledge base and returned with
   `success=True` (lines 644-665); an empty list yields the service-site
   result, also `success=True` (lines 666-676).
3. If the try-block raised, the handler (lines 678-691) first evaluates
   `self._is_blocking_error(e)` (line 682).  `_is_blocking_error` is not an
   attribute of `ProductExtractor` — it is a local function of `main()`
   (source line 3640) — so this lookup raises `AttributeError`, which
   escapes `discover_and_learn_products`; neither
   `_handle_blocked_site_learning` (line 684) nor the generic error result
   at lines 686-691 is ever reached.  The `Except.error` result models this
   escaping exception. -/
def discoverAndLearnProducts (kb : KnowledgeBase) (netloc : String)
    (maxProducts : Nat) (nowIso : String)
    (discovery : Except String DiscoveryOutcome) :
    Except PyError (ProductExtractionResult × KnowledgeBase) :=
  let domain := normalizeDomain netloc
  match lookupKB kb domain with
  | some kbData =>
      let products := kbData.products.take maxProducts
      .ok ({ products := products, total_found := products.length,
             extraction_method := "Dynamic Knowledge Base - " ++ domain,
             platform_detected := some kbData.platform,
             success := true }, kb)
  | none =>
      match discovery with
      | .ok outcome =>
          let uniqueProducts := dedupProducts outcome.products
          let finalProducts := uniqueProducts.take maxProducts
          if !finalProducts.isEmpty then
            let extractionMethod :=
              "Real Discovery - " ++ String.intercalate ", " outcome.methodsUsed
            let kb2 := addToDynamicKnowledgeBase kb netloc finalProducts
              (outcome.platform.getD "unknown") extractionMethod nowIso
            .ok ({ products := finalProducts,
                   total_found := finalProducts.length,
                   extraction_method := extractionMethod,
                   platform_detected := outcome.platform,
                   success := true }, kb2)
          else
            .ok ({ products := [], total_found := 0,
                   extraction_method := "Real Discovery - No products found",
                   platform_detected := outcome.platform,
                   success := true,
                   error_message := some "No e-commerce products detected on this site" }, kb)
      | .error _exceptionText =>
          .error blockingCheckAttributeError

/-! ### `extract_products_from_store` (source lines 693-799) -/

/-- The extractor state touched by `extract_products_from_store`: the
per-URL result cache and the dynamic knowledge base. -/
structure ExtractorState where
  cache : Cache
  dynamicKnowledgeBase : KnowledgeBase

/-- Embedding of `extract_products_from_store`.

Inputs beyond the state: the URL and its netloc, the clock (`now`), the
discovery outcome for `discover_and_learn_products` (see
`DiscoveryOutcome`), and the outcome `simplifiedOutcome` that
`_try_simplified_search` would return (it is network code that catches its
own exceptions and returns a result or `None`, source lines 3366-3436).

The whole body sits in a `try`: the only raising operation in the model is
`discoverAndLearnProducts` (the escaping `AttributeError`, see there), and
the `except` handler at lines 784-799 turns it into a `success=False`
result with `error_message=str(e)`, cached as a failure.

On a cache hit the source mutates the cached result object in place
(freshness/confidence metadata) and returns it; the model writes the
updated entry back.  Steps 2-4 (simplified search at lines 743-753, static
knowledge base at lines 755-765, the cached "No products found" failure at
lines 767-782) are reached only when `learning_result.success` is falsy,
which no `.ok` result of `discoverAndLearnProducts` ever is. -/
def extractProductsFromStore (st : ExtractorState) (storeUrl netloc : String)
    (maxProducts : Nat) (now : PyDateTime)
    (discovery : Except String DiscoveryOutcome)
    (simplifiedOutcome : Option ProductExtractionResult) :
    ProductExtractionResult × ExtractorState :=
  match getFromCache now st.cache storeUrl with
  | (some cachedEntry, cache2) =>
      if cachedEntry.is_failure then
        let result := { cachedEntry.result with
          data_freshness := some ("Cached failure from " ++ cachedEntry.timestamp.text),
          confidence_score := some (mkRat 3 10) }
        (result,
         { st with cache := cacheOverwrite cache2 storeUrl { cachedEntry with result := result } })
      else
        let result := { cachedEntry.result with
          data_freshness := some ("Cached from " ++ cachedEntry.timestamp.text),
          confidence_score := some (mkRat 8 10),
          last_verified := some cachedEntry.timestamp.text }
        (result,
         { st with cache := cacheOverwrite cache2 storeUrl { cachedEntry with result := result } })
  | (none, cache2) =>
      match discoverAndLearnProducts st.dynamicKnowledgeBase netloc maxProducts now.text discovery with
      | .error e =>
          let msg := pyErrorStr e
          let errorResult : ProductExtractionResult :=
            { products := [], total_found := 0,
              extraction_method := "Extraction failed", success := false,
              error_message := some msg, data_freshness := some "Error",
              confidence_score := some 0, last_verified := some now.text }
          (errorResult,
           { st with cache := storeInCache cache2 storeUrl errorResult now true (some msg) })
      | .ok (learningResult, kb2) =>
          if learningResult.success && !learningResult.products.isEmpty then
            let r := { learningResult with
              data_freshness := some "Real-time",
              confidence_score := some 1,
              last_verified := some now.text }
            (r, { cache := storeInCache cache2 storeUrl r now false none,
                  dynamicKnowledgeBase := kb2 })
          else if learningResult.success && learningResult.products.isEmpty then
            let r := { learningResult with
              data_freshness := some "Real-time",
              confidence_score := some (mkRat 9 10),
              last_verified := some now.text }
            (r, { cache := storeInCache cache2 storeUrl r now false none,
                  dynamicKnowledgeBase := kb2 })
          else
            let step4 : ProductExtractionResult × ExtractorState :=
              let failureResult : ProductExtractionResult :=
                { products := [], total_found := 0,
                  extraction_method := "No real products found",
                  success := true,
                  error_message := some "This site does not appear to sell e-commerce products",
                  data_freshness := some "Real-time (no products found)",
                  confidence_score := some (mkRat 8 10),
                  last_verified := some now.text }
              (failureResult,
               { cache := storeInCache cache2 storeUrl failureResult now true (some "No products found"),
                 dynamicKnowledgeBase := kb2 })
            let step3 : ProductExtractionResult × ExtractorState :=
              match extractViaStaticKnowledgeBase storeUrl netloc maxProducts with
              | some staticResult =>
                  if staticResult.success then
                    let r := { staticResult with
                      data_freshness := some "Static knowledge base",
                      confidence_score := some (mkRat 6 10),
                      last_verified := some "Static data - not verified" }
                    (r, { cache := storeInCache cache2 storeUrl r now false none,
                          dynamicKnowledgeBase := kb2 })
                  else step4
              | none => step4
            match simplifiedOutcome with
            | some simplifiedResult =>
                if simplifiedResult.success && !simplifiedResult.products.isEmpty then
                  let r := { simplifiedResult with
                    data_freshness := some "Real-time (simplified search)",
                    confidence_score := some (mkRat 7 10),
                    last_verified := some now.text }
                  (r, { cache := storeInCache cache2 storeUrl r now false none,
                        dynamicKnowledgeBase := kb2 })
                else step3
            | none => step3

/-! ### Predicates used by the invariant and idempotence theorems -/

/-- The specification invariant for results: `success=false` implies empty
`products`. -/
def resultOk (r : ProductExtractionResult) : Prop :=
  r.success = false → r.products = []

/-- Every result stored in the cache satisfies `resultOk`. -/
def cacheOk (cache : Cache) : Prop :=
  ∀ p ∈ cache, resultOk p.2.result

/-- Sufficient conditions on a string under which `_normalize_name` acts as
the identity (used for the conditional idempotence theorem): only lowercase
ASCII letters and single, non-terminal spaces; no `wholesale` or `bulk`
substring; not starting with one of the six stripped prefixes. -/
def normalizeFixed (y : String) : Prop :=
  (∀ c ∈ y.toList, (97 ≤ c.toNat ∧ c.toNat ≤ 122) ∨ c = ' ') ∧
  y.toList.head? ≠ some ' ' ∧
  y.toList.getLast? ≠ some ' ' ∧
  listContainsSub "  ".toList y.toList = false ∧
  listContainsSub "wholesale".toList y.toList = false ∧
  listContainsSub "bulk".toList y.toList = false ∧
  (∀ p ∈ prefixesToRemove, p.toList.isPrefixOf y.toList = false)

instance (y : String) : Decidable (normalizeFixed y) := by
  unfold normalizeFixed; infer_instance

/-- A letter-or-space character (the character class that the conditional
idempotence theorem assumes for normalized output). -/
def losChar (c : Char) : Prop := (97 ≤ c.toNat ∧ c.toNat ≤ 122) ∨ c = ' '

/-! ## Theorems -/

/-- Bridge between the kernel-computable `mkRat` form of the thresholds and
their division form. -/
theorem mkRat_eight_tenths : (mkRat 8 10 : ℚ) = 8/10 := by
  rw [Rat.mkRat_eq_div]; norm_num

/-- Bridge for the fuzzy threshold `0.9`. -/
theorem mkRat_nine_tenths : (mkRat 9 10 : ℚ) = 9/10 := by
  rw [Rat.mkRat_eq_div]; norm_num

/-- C3, counterexample: the second round-trip example of the specification
fails on the code.  `_normalize_name` first removes the `(New)` SKU-style
parenthetical and the prefix `the `, but then its prefix loop (which tests
all six prefixes in order against the running string) also removes
`classic `, leaving `"blue jeans"`. -/
theorem normalizeName_classic_example_fails :
    normalizeName "The Classic Blue Jeans (New)" ≠ "classic blue jeans" := by
  decide

/-- C3 (amended): the first round-trip example holds as specified; the
second normalizes to `"blue jeans"` because the `classic ` prefix is
stripped as well. -/
theorem normalizeName_roundtrip_examples :
    normalizeName "Premium T-Shirt - Min. 2 (SKU-123)" = "premium t shirt" ∧
    normalizeName "The Classic Blue Jeans (New)" = "blue jeans" := by
  constructor <;> decide

/-- C5, counterexample: `_find_fuzzy_product_matches` accepts at threshold
`0.8` (source line 2585), not `0.9`.  The pair below has Jaccard similarity
exactly `4/5 = 0.8 < 0.9`, yet it is reported as a fuzzy match and counted
by `_count_matching_products`. -/
theorem fuzzy_matcher_accepts_below_090 :
    ("red shoe one four five", "red shoe one four") ∈
      findFuzzyProductMatches ["red shoe one four five"] ["red shoe one four"] ∧
    countMatchingProducts ["red shoe one four"] ["red shoe one four five"] = 1 ∧
    calculateNameSimilarity "red shoe one four five" "red shoe one four" = 4/5 ∧
    ¬ ((4:ℚ)/5 ≥ 9/10) := by
  refine ⟨by decide, by decide, ?_, by norm_num⟩
  have h : calculateNameSimilarity "red shoe one four five" "red shoe one four" =
      mkRat 4 5 := by decide
  rw [h, Rat.mkRat_eq_div]; norm_num

/-- C5 (amended): every pair reported as a fuzzy match by
`_find_fuzzy_product_matches` (as used by `_count_matching_products`) is an
expansion/main pair of distinct names with word-overlap Jaccard similarity
at least `0.80` — the threshold in this matcher is `0.8`, not the `0.90`
the specification states. -/
theorem findFuzzyProductMatches_pairs (expansionNames mainNames : List String)
    (e m : String)
    (h : (e, m) ∈ findFuzzyProductMatches expansionNames mainNames) :
    e ∈ expansionNames ∧ m ∈ mainNames ∧ e ≠ m ∧
      calculateNameSimilarity e m ≥ 8/10 := by
  simp only [findFuzzyProductMatches, List.mem_flatten, List.mem_map] at h
  obtain ⟨l, ⟨e', he', rfl⟩, hm⟩ := h
  simp only [List.mem_map, List.mem_filter] at hm
  obtain ⟨m', ⟨hm', hcond⟩, heq⟩ := hm
  rw [Prod.mk.injEq] at heq
  obtain ⟨rfl, rfl⟩ := heq
  rw [decide_eq_true_eq] at hcond
  exact ⟨he', hm', hcond.1, by rw [← mkRat_eight_tenths]; exact hcond.2⟩

/-- Witness for `findFuzzyProductMatches_pairs` at a concrete reported
pair. -/
theorem findFuzzyProductMatches_pairs_witness :
    "red shoe one four five" ∈ ["red shoe one four five"] ∧
    "red shoe one four" ∈ ["red shoe one four"] ∧
    "red shoe one four five" ≠ "red shoe one four" ∧
    calculateNameSimilarity "red shoe one four five" "red shoe one four" ≥ 8/10 :=
  findFuzzyProductMatches_pairs ["red shoe one four five"] ["red shoe one four"]
    "red shoe one four five" "red shoe one four" (by decide)

/-- Invariant of the fuzzy best-of fold when no candidate reaches the
threshold: the accumulator never changes. -/
theorem fuzzyBest_const (nt : String) (l : List String)
    (acc : ℚ × Option String)
    (h : ∀ e ∈ l, ¬ (mkRat 9 10 ≤ calculateNameSimilarity nt (normalizeName e))) :
    l.foldl (fuzzyStep nt) acc = acc := by
  induction l generalizing acc with
  | nil => rfl
  | cons e t ih =>
      rw [List.foldl_cons]
      have hstep : fuzzyStep nt acc e = acc := by
        unfold fuzzyStep
        rw [if_neg]
        rintro ⟨-, h2⟩
        exact h e (by simp) h2
      rw [hstep]
      exact ih _ (fun x hx => h x (by simp [hx]))

/-- Invariants of the fuzzy best-of fold: the best similarity only grows;
the final accumulator is either untouched or holds a candidate of the list
whose similarity is at least the threshold and equals the recorded best;
and every candidate either stays below the final best or below the
threshold. -/
theorem fuzzyBest_aux (nt : String) (l : List String) :
    ∀ (acc : ℚ × Option String),
    acc.1 ≤ (l.foldl (fuzzyStep nt) acc).1 ∧
    ((l.foldl (fuzzyStep nt) acc) = acc ∨
      ∃ b ∈ l, (l.foldl (fuzzyStep nt) acc).2 = some b ∧
        (l.foldl (fuzzyStep nt) acc).1 = calculateNameSimilarity nt (normalizeName b) ∧
        mkRat 9 10 ≤ calculateNameSimilarity nt (normalizeName b)) ∧
    (∀ e ∈ l, calculateNameSimilarity nt (normalizeName e) ≤ (l.foldl (fuzzyStep nt) acc).1 ∨
      ¬ (mkRat 9 10 ≤ calculateNameSimilarity nt (normalizeName e))) := by
  induction l with
  | nil => intro acc; exact ⟨le_refl _, Or.inl rfl, by simp⟩
  | cons e t ih =>
      intro acc
      rw [List.foldl_cons]
      by_cases hc : calculateNameSimilarity nt (normalizeName e) > acc.1 ∧
          calculateNameSimilarity nt (normalizeName e) ≥ mkRat 9 10
      · have hstep : fuzzyStep nt acc e =
            (calculateNameSimilarity nt (normalizeName e), some e) := by
          unfold fuzzyStep; rw [if_pos hc]
        rw [hstep]
        obtain ⟨ih1, ih2, ih3⟩ := ih (calculateNameSimilarity nt (normalizeName e), some e)
        refine ⟨le_trans (le_of_lt hc.1) ih1, ?_, ?_⟩
        · rcases ih2 with heq | ⟨b, hb, h2, h3, h4⟩
          · exact Or.inr ⟨e, by simp, by rw [heq], by rw [heq], hc.2⟩
          · exact Or.inr ⟨b, by simp [hb], h2, h3, h4⟩
        · intro x hx
          rcases List.mem_cons.mp hx with rfl | hxt
          · exact Or.inl ih1
          · exact ih3 x hxt
      · have hstep : fuzzyStep nt acc e = acc := by
          unfold fuzzyStep; rw [if_neg hc]
        rw [hstep]
        obtain ⟨ih1, ih2, ih3⟩ := ih acc
        refine ⟨ih1, ?_, ?_⟩
        · rcases ih2 with heq | ⟨b, hb, h2, h3, h4⟩
          · exact Or.inl heq
          · exact Or.inr ⟨b, by simp [hb], h2, h3, h4⟩
        · intro x hx
          rcases List.mem_cons.mp hx with rfl | hxt
          · rcases not_and_or.mp hc with h1 | h2
            · exact Or.inl (le_trans (not_lt.mp h1) ih1)
            · exact Or.inr h2
          · exact ih3 x hxt

/-- C2: in the qualification search, for every target name, normalized
exact equality against every candidate is tested first and classified as
an exact match; only when no exact match exists is a fuzzy match possible,
it is accepted exactly when some candidate scores at least `0.9`, the
accepted candidate is a best-scoring one, and a target whose candidates all
score at most `0.89` is not matched. -/
theorem searchClassifyTarget_spec (expNames : List String) (target : String) :
    (searchClassifyTarget expNames target = .exact ↔
      ∃ e ∈ expNames, normalizeName e = normalizeName target) ∧
    ((¬ ∃ e ∈ expNames, normalizeName e = normalizeName target) →
      ((∃ b, searchClassifyTarget expNames target = .fuzzy b) ↔
        ∃ e ∈ expNames,
          calculateNameSimilarity (normalizeName target) (normalizeName e) ≥ 9/10)) ∧
    (∀ b, searchClassifyTarget expNames target = .fuzzy b →
      b ∈ expNames ∧
      calculateNameSimilarity (normalizeName target) (normalizeName b) ≥ 9/10 ∧
      ∀ e ∈ expNames,
        calculateNameSimilarity (normalizeName target) (normalizeName e) ≥ 9/10 →
        calculateNameSimilarity (normalizeName target) (normalizeName e) ≤
          calculateNameSimilarity (normalizeName target) (normalizeName b)) ∧
    ((∀ e ∈ expNames,
        calculateNameSimilarity (normalizeName target) (normalizeName e) ≤ 89/100) →
      (¬ ∃ e ∈ expNames, normalizeName e = normalizeName target) →
      searchClassifyTarget expNames target = .noMatch) := by
  have hany : ((expNames.any fun e => normalizeName e == normalizeName target) = true) ↔
      ∃ e ∈ expNames, normalizeName e = normalizeName target := by
    rw [List.any_eq_true]
    constructor
    · rintro ⟨e, he, hbe⟩; exact ⟨e, he, beq_iff_eq.mp hbe⟩
    · rintro ⟨e, he, hbe⟩; exact ⟨e, he, beq_iff_eq.mpr hbe⟩
  by_cases hex : ∃ e ∈ expNames, normalizeName e = normalizeName target
  · have hcls : searchClassifyTarget expNames target = .exact := by
      unfold searchClassifyTarget
      rw [if_pos (hany.mpr hex)]
    refine ⟨⟨fun _ => hex, fun _ => hcls⟩, fun hc => absurd hex hc, ?_, fun _ hc => absurd hex hc⟩
    intro b hb
    rw [hcls] at hb
    exact absurd hb (by simp)
  · have hneg : ¬ ((expNames.any fun e => normalizeName e == normalizeName target) = true) :=
      fun hc => hex (hany.mp hc)
    obtain ⟨haux1, haux2, haux3⟩ :=
      fuzzyBest_aux (normalizeName target) expNames ((0 : ℚ), (none : Option String))
    have hcls : searchClassifyTarget expNames target =
        match (List.foldl (fuzzyStep (normalizeName target)) (0, none) expNames).2 with
        | some b => MatchOutcome.fuzzy b
        | none => MatchOutcome.noMatch := by
      unfold searchClassifyTarget fuzzyBest
      rw [if_neg hneg]
    rcases hsplit : (List.foldl (fuzzyStep (normalizeName target)) (0, none) expNames).2
      with _ | b0
    · have hnone : searchClassifyTarget expNames target = .noMatch := by
        rw [hcls, hsplit]
      have hallno : ∀ e ∈ expNames,
          ¬ (mkRat 9 10 ≤ calculateNameSimilarity (normalizeName target) (normalizeName e)) := by
        intro e he hge
        have hr0 : List.foldl (fuzzyStep (normalizeName target)) (0, none) expNames =
            ((0 : ℚ), (none : Option String)) := by
          rcases haux2 with heq | ⟨b2, -, hb2some, -, -⟩
          · exact heq
          · rw [hb2some] at hsplit; cases hsplit
        rcases haux3 e he with hle | hnge
        · rw [hr0] at hle
          have hcontra : mkRat 9 10 ≤ 0 := le_trans hge hle
          rw [mkRat_nine_tenths] at hcontra; norm_num at hcontra
        · exact hnge hge
      refine ⟨?_, ?_, ?_, fun _ _ => hnone⟩
      · constructor
        · intro h; rw [hnone] at h; exact absurd h (by simp)
        · intro h; exact absurd h hex
      · intro _
        constructor
        · rintro ⟨b, hb⟩; rw [hnone] at hb; exact absurd hb (by simp)
        · rintro ⟨e, he, hge⟩
          rw [← mkRat_nine_tenths] at hge
          exact absurd hge (hallno e he)
      · intro b hb; rw [hnone] at hb; exact absurd hb (by simp)
    · have hfuzzy : searchClassifyTarget expNames target = .fuzzy b0 := by
        rw [hcls, hsplit]
      have hgood : ∃ b ∈ expNames,
          (List.foldl (fuzzyStep (normalizeName target)) (0, none) expNames).2 = some b ∧
          (List.foldl (fuzzyStep (normalizeName target)) (0, none) expNames).1 =
            calculateNameSimilarity (normalizeName target) (normalizeName b) ∧
          mkRat 9 10 ≤ calculateNameSimilarity (normalizeName target) (normalizeName b) := by
        rcases haux2 with heq | hgood
        · rw [heq] at hsplit; cases hsplit
        · exact hgood
      obtain ⟨b2, hb2mem, hb2some, hb2val, hb2ge⟩ := hgood
      have hbb : b2 = b0 := by rw [hb2some] at hsplit; injection hsplit
      subst hbb
      refine ⟨?_, ?_, ?_, ?_⟩
      · constructor
        · intro h; rw [hfuzzy] at h; exact absurd h (by simp)
        · intro h; exact absurd h hex
      · intro _
        exact ⟨fun _ => ⟨b2, hb2mem, by rw [← mkRat_nine_tenths]; exact hb2ge⟩,
               fun _ => ⟨b2, hfuzzy⟩⟩
      · intro b hb
        rw [hfuzzy] at hb
        injection hb with hb
        subst hb
        refine ⟨hb2mem, by rw [← mkRat_nine_tenths]; exact hb2ge, ?_⟩
        intro e he hge
        rcases haux3 e he with hle | hnge
        · rw [hb2val] at hle; exact hle
        · rw [← mkRat_nine_tenths] at hge; exact absurd hge hnge
      · intro hall _
        exfalso
        have hcontra : mkRat 9 10 ≤ 89/100 := le_trans hb2ge (hall b2 hb2mem)
        rw [mkRat_nine_tenths] at hcontra; norm_num at hcontra

/-- Witness for `searchClassifyTarget_spec`: a nine-word candidate against
its ten-word superset target has Jaccard score exactly `9/10`; with no
exact match available, the fuzzy path accepts it. -/
theorem searchClassifyTarget_spec_witness :
    ∃ b, searchClassifyTarget
        ["alpha bravo charlie delta echo foxtrot golf hotel india"]
        "alpha bravo charlie delta echo foxtrot golf hotel india juliet" = .fuzzy b :=
  ((searchClassifyTarget_spec
      ["alpha bravo charlie delta echo foxtrot golf hotel india"]
      "alpha bravo charlie delta echo foxtrot golf hotel india juliet").2.1
    (by decide)).mpr
    ⟨"alpha bravo charlie delta echo foxtrot golf hotel india", by decide, by
      have h : calculateNameSimilarity
          (normalizeName "alpha bravo charlie delta echo foxtrot golf hotel india juliet")
          (normalizeName "alpha bravo charlie delta echo foxtrot golf hotel india") =
          mkRat 9 10 := by decide
      rw [h, mkRat_nine_tenths]⟩
/-- C7: a cache entry is valid exactly when its age is strictly below its
TTL — two hours for failures, twenty-four for successes (so an entry of age
exactly 2h or 24h is already invalid) — and an invalid entry is deleted and
reported as a miss by the cache read path. -/
theorem cacheTtl_spec (now : PyDateTime) (cache : Cache) (url : String)
    (entry : CacheEntry) (h : lookupCache cache url = some entry) :
    (isCacheValid now entry = true ↔
      now.seconds - entry.timestamp.seconds <
        (if entry.is_failure then failureCacheTtlHours else cacheTtlHours) * 3600) ∧
    (entry.is_failure = true →
      (isCacheValid now entry = true ↔
        now.seconds - entry.timestamp.seconds < 2 * 3600)) ∧
    (entry.is_failure = false →
      (isCacheValid now entry = true ↔
        now.seconds - entry.timestamp.seconds < 24 * 3600)) ∧
    (isCacheValid now entry = true →
      (getFromCache now cache url).1 = some entry) ∧
    (isCacheValid now entry = false →
      (getFromCache now cache url).1 = none ∧
      lookupCache (getFromCache now cache url).2 url = none) := by
  have hvalid : isCacheValid now entry = true ↔
      now.seconds - entry.timestamp.seconds <
        (if entry.is_failure then failureCacheTtlHours else cacheTtlHours) * 3600 := by
    unfold isCacheValid
    by_cases hf : entry.is_failure
    · rw [if_pos hf, if_pos hf, decide_eq_true_eq]
    · rw [if_neg hf, if_neg hf, decide_eq_true_eq]
  have hdel : lookupCache (cacheDelete cache url) url = none := by
    unfold lookupCache cacheDelete
    have hfind : (List.filter (fun p => decide (p.1 ≠ url)) cache).find?
        (fun p => p.1 == url) = none := by
      rw [List.find?_eq_none]
      intro x hx
      have hxne := (List.mem_filter.mp hx).2
      rw [decide_eq_true_eq] at hxne
      simp only [beq_iff_eq]
      exact hxne
    rw [hfind]
    rfl
  refine ⟨hvalid, ?_, ?_, ?_, ?_⟩
  · intro hf
    rw [hvalid, hf, if_pos rfl]
    unfold failureCacheTtlHours
    constructor <;> intro <;> linarith
  · intro hf
    rw [hvalid, hf]
    simp only [Bool.false_eq_true, if_false]
    unfold cacheTtlHours
    constructor <;> intro <;> linarith
  · intro hv
    unfold getFromCache
    rw [h]
    show (if isCacheValid now entry = true then (some entry, cache)
      else (none, cacheDelete cache url)).1 = some entry
    rw [if_pos hv]
  · intro hv
    unfold getFromCache
    rw [h]
    have hcond : ¬ (isCacheValid now entry = true) := by
      rw [hv]; exact Bool.false_ne_true
    constructor
    · show (if isCacheValid now entry = true then (some entry, cache)
        else (none, cacheDelete cache url)).1 = none
      rw [if_neg hcond]
    · show lookupCache (if isCacheValid now entry = true then (some entry, cache)
        else (none, cacheDelete cache url)).2 url = none
      rw [if_neg hcond]
      exact hdel

/-- Witness for `cacheTtl_spec`: a failure entry whose age is exactly two
hours is expired, deleted, and a miss. -/
theorem cacheTtl_spec_witness :
    (getFromCache ⟨7200, "t1"⟩
        [("https://u.com",
          ⟨"https://u.com", ⟨[], 0, "failed", none, false, none, none, none, none⟩,
           ⟨0, "t0"⟩, true, some "boom"⟩)] "https://u.com").1 = none ∧
    lookupCache
      (getFromCache ⟨7200, "t1"⟩
        [("https://u.com",
          ⟨"https://u.com", ⟨[], 0, "failed", none, false, none, none, none, none⟩,
           ⟨0, "t0"⟩, true, some "boom"⟩)] "https://u.com").2 "https://u.com" = none :=
  (cacheTtl_spec ⟨7200, "t1"⟩
      [("https://u.com",
        ⟨"https://u.com", ⟨[], 0, "failed", none, false, none, none, none, none⟩,
         ⟨0, "t0"⟩, true, some "boom"⟩)] "https://u.com"
      ⟨"https://u.com", ⟨[], 0, "failed", none, false, none, none, none, none⟩,
       ⟨0, "t0"⟩, true, some "boom"⟩ (by decide)).2.2.2.2
    (by simp [isCacheValid, failureCacheTtlHours]; norm_num)

/-- C6: when the normalized domain already has a (non-empty) dynamic
knowledge-base entry, `discover_and_learn_products` returns immediately with
`success=True` and exactly the stored product list truncated to
`max_products`, for every possible discovery outcome — in particular the
result does not depend on the discovery oracle at all (no discovery
strategy, hence no network request, is consulted), nor on the entry
timestamp or on any clock (no TTL check: the returned value mentions only
the stored products and platform). -/
theorem dynamicKB_short_circuit (kb : KnowledgeBase) (netloc : String)
    (maxProducts : Nat) (nowIso : String) (entry : KBEntry)
    (h : lookupKB kb (normalizeDomain netloc) = some entry)
    (hne : entry.products ≠ []) :
    (∀ discovery : Except String DiscoveryOutcome,
      discoverAndLearnProducts kb netloc maxProducts nowIso discovery =
        .ok ({ products := entry.products.take maxProducts,
               total_found := (entry.products.take maxProducts).length,
               extraction_method := "Dynamic Knowledge Base - " ++ normalizeDomain netloc,
               platform_detected := some entry.platform,
               success := true }, kb)) ∧
    (∀ d1 d2 : Except String DiscoveryOutcome,
      discoverAndLearnProducts kb netloc maxProducts nowIso d1 =
      discoverAndLearnProducts kb netloc maxProducts nowIso d2) := by
  have hmain : ∀ discovery : Except String DiscoveryOutcome,
      discoverAndLearnProducts kb netloc maxProducts nowIso discovery =
        .ok ({ products := entry.products.take maxProducts,
               total_found := (entry.products.take maxProducts).length,
               extraction_method := "Dynamic Knowledge Base - " ++ normalizeDomain netloc,
               platform_detected := some entry.platform,
               success := true }, kb) := by
    intro discovery
    simp only [discoverAndLearnProducts, h]
  exact ⟨hmain, fun d1 d2 => by rw [hmain d1, hmain d2]⟩

/-- Witness for `dynamicKB_short_circuit`: a one-entry knowledge base for
`sweaters.com`, reached through the netloc `www.Sweaters.com`, answers from
the knowledge base even when the discovery oracle would have raised. -/
theorem dynamicKB_short_circuit_witness :
    discoverAndLearnProducts
        [("sweaters.com", ⟨[⟨"Blue Wool Sweater", "https://sweaters.com/products/blue",
            none, none, none, none, none, none⟩], "shopify", some "2024-01-01", none⟩)]
        "www.Sweaters.com" 1 "t" (.error "boom") =
      .ok ({ products := [⟨"Blue Wool Sweater", "https://sweaters.com/products/blue",
               none, none, none, none, none, none⟩],
             total_found := 1,
             extraction_method := "Dynamic Knowledge Base - sweaters.com",
             platform_detected := some "shopify",
             success := true },
           [("sweaters.com", ⟨[⟨"Blue Wool Sweater", "https://sweaters.com/products/blue",
               none, none, none, none, none, none⟩], "shopify", some "2024-01-01", none⟩)]) := by
  have h := (dynamicKB_short_circuit
      [("sweaters.com", ⟨[⟨"Blue Wool Sweater", "https://sweaters.com/products/blue",
          none, none, none, none, none, none⟩], "shopify", some "2024-01-01", none⟩)]
      "www.Sweaters.com" 1 "t"
      ⟨[⟨"Blue Wool Sweater", "https://sweaters.com/products/blue",
          none, none, none, none, none, none⟩], "shopify", some "2024-01-01", none⟩
      (by decide) (by decide)).1 (.error "boom")
  rw [h]
  rfl

/-- C9 counterexample: the static knowledge base misses `shoestore.com`,
and `_handle_blocked_site_learning`, invoked on a `ProductExtractor`,
raises `AttributeError` at source line 3665 (`_infer_products_from_domain`
is a local function of `main()`, not an attribute of the class) — it does
not return a `success=True` result, refuting the claim that the handler
always returns `success=True` whenever the static knowledge base
misses. -/
theorem blocked_handler_raises_on_static_miss :
    handleBlockedSiteLearning [] "https://shoestore.com" "shoestore.com" 10
      = Except.error inferAttributeError := rfl

/-- C9 (amended): `_infer_products_from_domain` always returns between one
and four products (its body never uses `self`), and a connected-component
argument about the handler body would make the `success=False`
manual-intervention branch dead; but `_handle_blocked_site_learning`,
invoked on a `ProductExtractor`, never reaches that code: whenever the
static knowledge base misses (or yields an empty product list), the
`self._infer_products_from_domain` call at source line 3665 raises
`AttributeError`, so the handler returns only on a static-knowledge-base
hit with products, and every result it does return has `success=True` with
the knowledge base unchanged. -/
theorem inferProducts_nonempty_handler_raises :
    (∀ storeUrl domain : String,
      inferProductsFromDomain storeUrl domain ≠ [] ∧
      (inferProductsFromDomain storeUrl domain).length ≤ 4) ∧
    (∀ (kb : KnowledgeBase) (storeUrl netloc : String) (maxProducts : Nat),
      (∀ r, extractViaStaticKnowledgeBase storeUrl netloc maxProducts = some r →
        r.products = []) →
      handleBlockedSiteLearning kb storeUrl netloc maxProducts
        = Except.error inferAttributeError) ∧
    (∀ (kb : KnowledgeBase) (storeUrl netloc : String) (maxProducts : Nat)
        (r : ProductExtractionResult) (kb2 : KnowledgeBase),
      handleBlockedSiteLearning kb storeUrl netloc maxProducts
        = Except.ok (r, kb2) →
      r.success = true ∧ kb2 = kb) := by
  refine ⟨?_, ?_, ?_⟩
  · intro storeUrl domain
    unfold inferProductsFromDomain
    rcases hfind : domainKeywords.find?
        (fun p => strContainsSub p.1 (pyLowerStr domain)) with _ | entry
    · simp only [hfind]
      exact ⟨by simp, by simp⟩
    · simp only [hfind]
      have hmem : entry ∈ domainKeywords := List.mem_of_find?_eq_some hfind
      have hne2 : entry.2 ≠ [] := by
        have hall : ∀ e ∈ domainKeywords, e.2 ≠ [] := by decide
        exact hall entry hmem
      constructor
      · simp [List.take_eq_nil_iff, List.map_eq_nil_iff, hne2]
      · simp only [List.length_map, List.length_take]
        omega
  · intro kb storeUrl netloc maxProducts hmiss
    unfold handleBlockedSiteLearning
    rcases hstatic : extractViaStaticKnowledgeBase storeUrl netloc maxProducts
        with _ | staticResult
    · rfl
    · have hempty : staticResult.products = [] := hmiss staticResult hstatic
      simp [hempty]
  · intro kb storeUrl netloc maxProducts r kb2 hok
    unfold handleBlockedSiteLearning at hok
    rcases hstatic : extractViaStaticKnowledgeBase storeUrl netloc maxProducts
        with _ | staticResult
    · rw [hstatic] at hok
      exact Except.noConfusion hok
    · rw [hstatic] at hok
      rcases hempty : staticResult.products.isEmpty with _ | _
      · simp only [hempty, Bool.not_false, if_true, Except.ok.injEq,
          Prod.mk.injEq] at hok
        have hsucc : staticResult.success = true := by
          simp only [extractViaStaticKnowledgeBase] at hstatic
          rcases hfind : (staticKnowledgeBase storeUrl).find?
              (fun p => pyLowerStr netloc == p.1 ||
                pyEndsWith (pyLowerStr netloc) ("." ++ p.1)) with _ | entry
          · simp only [hfind] at hstatic
            exact Option.noConfusion hstatic
          · simp only [hfind, Option.some.injEq] at hstatic
            rw [← hstatic]
        exact ⟨hok.1 ▸ hsucc, hok.2.symm⟩
      · simp [hempty] at hok

/-- Witness for `inferProducts_nonempty_handler_raises`: the inferred
catalog for `shoestore.com` is non-empty, and on the static-knowledge-base
miss for that domain the handler raises `AttributeError`. -/
theorem inferProducts_nonempty_handler_raises_witness :
    inferProductsFromDomain "https://shoestore.com" "shoestore.com" ≠ [] ∧
    handleBlockedSiteLearning [] "https://shoestore.com" "shoestore.com" 10
      = Except.error inferAttributeError :=
  ⟨(inferProducts_nonempty_handler_raises.1 "https://shoestore.com" "shoestore.com").1,
   inferProducts_nonempty_handler_raises.2.1 [] "https://shoestore.com" "shoestore.com" 10
     (fun r hr => by
       rw [show extractViaStaticKnowledgeBase "https://shoestore.com" "shoestore.com" 10
             = none from by decide] at hr
       exact Option.noConfusion hr)⟩

/-- Every normally-returned result of `discover_and_learn_products` has
`success=True`: the knowledge-base hit, the non-empty discovery and the
service-site branches all set it; the only other exit is the escaping
exception.  (Consequently the fallback steps 2-4 of
`extract_products_from_store`, which require a returned result with falsy
`success`, are unreachable.) -/
theorem discover_ok_success (kb : KnowledgeBase) (netloc : String)
    (maxProducts : Nat) (nowIso : String)
    (discovery : Except String DiscoveryOutcome)
    (r : ProductExtractionResult) (kb2 : KnowledgeBase)
    (h : discoverAndLearnProducts kb netloc maxProducts nowIso discovery =
      .ok (r, kb2)) :
    r.success = true := by
  unfold discoverAndLearnProducts at h
  rcases hkb : lookupKB kb (normalizeDomain netloc) with _ | entry
  · rcases discovery with msg | outcome
    · simp only [hkb] at h
      exact absurd h (by simp)
    · simp only [hkb] at h
      by_cases hif : (!(List.take maxProducts (dedupProducts outcome.products)).isEmpty) = true
      · rw [if_pos hif] at h
        injection h with hpair
        rw [Prod.mk.injEq] at hpair
        rw [← hpair.1]
      · rw [if_neg hif] at h
        injection h with hpair
        rw [Prod.mk.injEq] at hpair
        rw [← hpair.1]
  · simp only [hkb] at h
    injection h with hpair
    rw [Prod.mk.injEq] at hpair
    rw [← hpair.1]

/-- Cache reads after a write at the same key return the written entry. -/
theorem lookupCache_overwrite (cache : Cache) (url : String) (entry : CacheEntry) :
    lookupCache (cacheOverwrite cache url entry) url = some entry := by
  unfold lookupCache cacheOverwrite
  rw [List.find?_cons_of_pos _ (by simp)]
  rfl

/-- C1: when the discovery try-block raises any exception — in particular a
non-blocking one — `extract_products_from_store` ultimately returns a
generic error result with `success=False` and empty `products`, while every
exception-free run returns `success=True`; the two outcomes are
distinguishable by the `success` flag.  (Mechanism: the handler of
`discover_and_learn_products` immediately evaluates
`self._is_blocking_error(e)`, which raises `AttributeError` because that
helper is local to `main()`, so every discovery exception escapes to the
outer handler of `extract_products_from_store` at source lines 784-799,
which builds the `success=False` result and caches it as a failure.) -/
theorem nonblocking_exception_error_result
    (st : ExtractorState) (storeUrl netloc : String) (maxProducts : Nat)
    (now : PyDateTime) (simplifiedOutcome : Option ProductExtractionResult)
    (exceptionText : String)
    (hmiss : (getFromCache now st.cache storeUrl).1 = none)
    (hkb : lookupKB st.dynamicKnowledgeBase (normalizeDomain netloc) = none)
    (hnb : isBlockingError exceptionText = false) :
    ((extractProductsFromStore st storeUrl netloc maxProducts now
        (.error exceptionText) simplifiedOutcome).1.success = false ∧
     (extractProductsFromStore st storeUrl netloc maxProducts now
        (.error exceptionText) simplifiedOutcome).1.products = []) ∧
    (∀ outcome : DiscoveryOutcome,
      (extractProductsFromStore st storeUrl netloc maxProducts now
        (.ok outcome) simplifiedOutcome).1.success = true) := by
  rcases hg : getFromCache now st.cache storeUrl with ⟨o, c2⟩
  have ho : o = none := by rw [hg] at hmiss; exact hmiss
  subst ho
  constructor
  · have hd : discoverAndLearnProducts st.dynamicKnowledgeBase netloc maxProducts
        now.text (.error exceptionText) = .error blockingCheckAttributeError := by
      simp only [discoverAndLearnProducts, hkb]
    unfold extractProductsFromStore
    rw [hg]
    simp [hd]
  · intro outcome
    have hex : ∃ r kb2, discoverAndLearnProducts st.dynamicKnowledgeBase netloc
        maxProducts now.text (.ok outcome) = .ok (r, kb2) := by
      simp only [discoverAndLearnProducts, hkb]
      by_cases hif : (!(List.take maxProducts (dedupProducts outcome.products)).isEmpty) = true
      · rw [if_pos hif]; exact ⟨_, _, rfl⟩
      · rw [if_neg hif]; exact ⟨_, _, rfl⟩
    obtain ⟨r, kb2, hdok⟩ := hex
    have hsuc := discover_ok_success _ _ _ _ _ _ _ hdok
    unfold extractProductsFromStore
    rw [hg]
    simp only [hdok]
    cases hp : r.products.isEmpty with
    | false => simp [hsuc, hp]
    | true => simp [hsuc, hp]

/-- Witness for `nonblocking_exception_error_result`: a fresh extractor, a
discovery raising `ValueError("boom")` (not a blocking error), yields the
`success=False` empty result. -/
theorem nonblocking_exception_error_result_witness :
    (extractProductsFromStore ⟨[], []⟩ "https://x.com" "x.com" 10 ⟨0, "t0"⟩
        (.error "boom") none).1.success = false ∧
    (extractProductsFromStore ⟨[], []⟩ "https://x.com" "x.com" 10 ⟨0, "t0"⟩
        (.error "boom") none).1.products = [] :=
  (nonblocking_exception_error_result ⟨[], []⟩ "https://x.com" "x.com" 10 ⟨0, "t0"⟩
    none "boom" (by decide) (by decide) (by decide)).1

/-- C10, counterexample: a full pipeline run that completes without
exception and finds no products is returned from the service-site branch of
`extract_products_from_store` (source lines 732-741) and cached with
`is_failure=False` and no failure reason — not, as claimed, with
`is_failure=True` and reason `"No products found"`; it therefore ages under
the 24-hour success TTL. -/
theorem no_products_outcome_cached_as_success :
    (extractProductsFromStore ⟨[], []⟩ "https://servicesite.com" "servicesite.com" 10
        ⟨0, "t0"⟩ (.ok ⟨[], none, []⟩) none).1.success = true ∧
    (lookupCache (extractProductsFromStore ⟨[], []⟩ "https://servicesite.com"
          "servicesite.com" 10 ⟨0, "t0"⟩ (.ok ⟨[], none, []⟩) none).2.cache
        "https://servicesite.com").map (fun e => (e.is_failure, e.failure_reason)) =
      some (false, none) := by
  constructor
  · decide
  · decide

/-- C10 (amended): when the pipeline completes without exception and
discovery finds no products, `extract_products_from_store` returns the
service-site result (`success=True`) and stores it in the per-URL cache
with `is_failure=False` — so it expires under the 24-hour success TTL, not
the 2-hour failure TTL.  The step-4 code (source lines 767-782) that would
cache `is_failure=True` with reason `"No products found"` is unreachable,
because `discover_and_learn_products` never returns a result with falsy
`success` (see `discover_ok_success`). -/
theorem no_products_service_site_caching
    (st : ExtractorState) (storeUrl netloc : String) (maxProducts : Nat)
    (now : PyDateTime) (simplifiedOutcome : Option ProductExtractionResult)
    (outcome : DiscoveryOutcome)
    (hmiss : (getFromCache now st.cache storeUrl).1 = none)
    (hkb : lookupKB st.dynamicKnowledgeBase (normalizeDomain netloc) = none)
    (hempty : (dedupProducts outcome.products).take maxProducts = []) :
    (extractProductsFromStore st storeUrl netloc maxProducts now
        (.ok outcome) simplifiedOutcome).1.success = true ∧
    (extractProductsFromStore st storeUrl netloc maxProducts now
        (.ok outcome) simplifiedOutcome).1.error_message =
      some "No e-commerce products detected on this site" ∧
    (lookupCache (extractProductsFromStore st storeUrl netloc maxProducts now
          (.ok outcome) simplifiedOutcome).2.cache storeUrl).map
        (fun e => (e.is_failure, e.failure_reason)) = some (false, none) := by
  rcases hg : getFromCache now st.cache storeUrl with ⟨o, c2⟩
  have ho : o = none := by rw [hg] at hmiss; exact hmiss
  subst ho
  have hd : discoverAndLearnProducts st.dynamicKnowledgeBase netloc maxProducts
      now.text (.ok outcome) =
      .ok ({ products := [], total_found := 0,
             extraction_method := "Real Discovery - No products found",
             platform_detected := outcome.platform, success := true,
             error_message := some "No e-commerce products detected on this site" },
           st.dynamicKnowledgeBase) := by
    simp only [discoverAndLearnProducts, hkb, hempty]
    rw [if_neg (by simp)]
  unfold extractProductsFromStore
  rw [hg]
  simp only [hd]
  refine ⟨by simp, by simp, ?_⟩
  simp [storeInCache, lookupCache_overwrite]

/-- Witness for `no_products_service_site_caching` at a fresh extractor and
an empty discovery outcome. -/
theorem no_products_service_site_caching_witness :
    (extractProductsFromStore ⟨[], []⟩ "https://y.com" "y.com" 5 ⟨0, "t0"⟩
        (.ok ⟨[], none, []⟩) none).1.success = true ∧
    (extractProductsFromStore ⟨[], []⟩ "https://y.com" "y.com" 5 ⟨0, "t0"⟩
        (.ok ⟨[], none, []⟩) none).1.error_message =
      some "No e-commerce products detected on this site" ∧
    (lookupCache (extractProductsFromStore ⟨[], []⟩ "https://y.com" "y.com" 5 ⟨0, "t0"⟩
          (.ok ⟨[], none, []⟩) none).2.cache "https://y.com").map
        (fun e => (e.is_failure, e.failure_reason)) = some (false, none) :=
  no_products_service_site_caching ⟨[], []⟩ "https://y.com" "y.com" 5 ⟨0, "t0"⟩ none
    ⟨[], none, []⟩ (by decide) (by decide) (by decide)

/-- Overwriting a cache key preserves the result invariant when the written
entry satisfies it. -/
theorem cacheOk_overwrite (cache : Cache) (url : String) (entry : CacheEntry)
    (h1 : cacheOk cache) (h2 : resultOk entry.result) :
    cacheOk (cacheOverwrite cache url entry) := by
  intro p hp
  rcases List.mem_cons.mp hp with rfl | hp2
  · exact h2
  · exact h1 p (List.mem_filter.mp hp2).1

/-- The cache read path returns the cache unchanged or with one key
deleted, and any entry it returns was stored in the cache. -/
theorem getFromCache_sound (now : PyDateTime) (cache : Cache) (url : String) :
    ((getFromCache now cache url).2 = cache ∨
     (getFromCache now cache url).2 = cacheDelete cache url) ∧
    (∀ entry, (getFromCache now cache url).1 = some entry →
      ∃ p ∈ cache, p.2 = entry) := by
  unfold getFromCache
  split
  next entry hl =>
    have hmem : ∃ p ∈ cache, p.2 = entry := by
      unfold lookupCache at hl
      rw [Option.map_eq_some'] at hl
      obtain ⟨p, hfind, hp2⟩ := hl
      exact ⟨p, List.mem_of_find?_eq_some hfind, hp2⟩
    by_cases hv : isCacheValid now entry = true
    · rw [if_pos hv]
      refine ⟨Or.inl rfl, ?_⟩
      intro e he
      injection he with he
      exact he ▸ hmem
    · rw [if_neg hv]
      exact ⟨Or.inr rfl, by simp⟩
  next hl =>
    exact ⟨Or.inl rfl, by simp⟩

/-- C8: every result `extract_products_from_store` returns with
`success=False` has empty `products` (given that every cached result does),
and this invariant is preserved in the per-URL cache, keeping the hard
failure (`success=False`, empty) distinguishable from the service site
(`success=True`, empty). -/
theorem extract_success_false_implies_empty
    (st : ExtractorState) (storeUrl netloc : String) (maxProducts : Nat)
    (now : PyDateTime) (discovery : Except String DiscoveryOutcome)
    (simplifiedOutcome : Option ProductExtractionResult)
    (hcache : cacheOk st.cache) :
    resultOk (extractProductsFromStore st storeUrl netloc maxProducts now
      discovery simplifiedOutcome).1 ∧
    cacheOk (extractProductsFromStore st storeUrl netloc maxProducts now
      discovery simplifiedOutcome).2.cache := by
  obtain ⟨hc2cases, hsome⟩ := getFromCache_sound now st.cache storeUrl
  rcases hg : getFromCache now st.cache storeUrl with ⟨o, c2⟩
  rw [hg] at hc2cases hsome
  have hc2ok : cacheOk c2 := by
    rcases hc2cases with h | h
    · rw [show c2 = st.cache from h]; exact hcache
    · rw [show c2 = cacheDelete st.cache storeUrl from h]
      intro p hp
      exact hcache p (List.mem_filter.mp hp).1
  unfold extractProductsFromStore
  rw [hg]
  rcases o with _ | entry
  · rcases hd : discoverAndLearnProducts st.dynamicKnowledgeBase netloc maxProducts
        now.text discovery with e | pr
    · simp only [hd]
      constructor
      · intro _
        rfl
      · exact cacheOk_overwrite _ _ _ hc2ok (fun _ => rfl)
    · rcases pr with ⟨r, kb2⟩
      have hsuc := discover_ok_success _ _ _ _ _ _ _ hd
      simp only [hd]
      cases hp : r.products.isEmpty with
      | false =>
          simp only [hsuc, hp, Bool.not_false, Bool.and_true, if_true]
          constructor
          · intro hcon
            exact absurd hcon (by simp)
          · exact cacheOk_overwrite _ _ _ hc2ok (fun hcon => absurd hcon (by simp))
      | true =>
          simp only [hsuc, hp, Bool.not_true, Bool.and_false, Bool.false_eq_true, if_false,
            Bool.and_true, if_true]
          constructor
          · intro _
            exact (List.isEmpty_iff.mp hp : r.products = [])
          · exact cacheOk_overwrite _ _ _ hc2ok
              (fun _ => (List.isEmpty_iff.mp hp : r.products = []))
  · have hres : resultOk entry.result := by
      obtain ⟨p, hpmem, hp2⟩ := hsome entry rfl
      rw [← hp2]
      exact hcache p hpmem
    cases hf : entry.is_failure with
    | true =>
        simp only [hf, if_true]
        constructor
        · exact fun h => hres h
        · exact cacheOk_overwrite _ _ _ hc2ok (fun h => hres h)
    | false =>
        simp only [hf, Bool.false_eq_true, if_false]
        constructor
        · exact fun h => hres h
        · exact cacheOk_overwrite _ _ _ hc2ok (fun h => hres h)

/-- Witness for `extract_success_false_implies_empty`: the empty cache
satisfies the invariant, and the exception run keeps it. -/
theorem extract_success_false_implies_empty_witness :
    resultOk (extractProductsFromStore ⟨[], []⟩ "https://w.com" "w.com" 10 ⟨0, "t0"⟩
      (.error "boom") none).1 ∧
    cacheOk (extractProductsFromStore ⟨[], []⟩ "https://w.com" "w.com" 10 ⟨0, "t0"⟩
      (.error "boom") none).2.cache :=
  extract_success_false_implies_empty ⟨[], []⟩ "https://w.com" "w.com" 10 ⟨0, "t0"⟩
    (.error "boom") none (by intro p hp; cases hp)

theorem losChar_not_space_char (c : Char) (h : losChar c) (hne : c ≠ ' ') :
    pyIsSpaceChar c = false := by
  rcases h with ⟨h1, h2⟩ | rfl
  · unfold pyIsSpaceChar
    have hne2 : ∀ d : Char, d.toNat ≠ c.toNat → (c == d) = false := by
      intro d hd
      rw [beq_eq_false_iff_ne]
      intro hc
      exact hd (by rw [hc])
    rw [hne2 ' ' (by have : (' ' : Char).toNat = 32 := rfl; omega),
        hne2 '\t' (by have : ('\t' : Char).toNat = 9 := rfl; omega),
        hne2 '\n' (by have : ('\n' : Char).toNat = 10 := rfl; omega),
        hne2 '\r' (by have : ('\r' : Char).toNat = 13 := rfl; omega),
        hne2 (Char.ofNat 11) (by have : (Char.ofNat 11).toNat = 11 := rfl; omega),
        hne2 (Char.ofNat 12) (by have : (Char.ofNat 12).toNat = 12 := rfl; omega)]
    rfl
  · exact absurd rfl hne

theorem losChar_word (c : Char) (h : 97 ≤ c.toNat ∧ c.toNat ≤ 122) :
    pyIsWordChar c = true := by
  unfold pyIsWordChar
  have hx : (97 ≤ c.toNat && c.toNat ≤ 122) = true := by
    rw [Bool.and_eq_true, decide_eq_true_eq, decide_eq_true_eq]
    exact h
  rw [hx]
  rfl

theorem losChar_lower_id (c : Char) (h : losChar c) : pyLowerChar c = c := by
  unfold pyLowerChar
  rw [if_neg]
  rcases h with ⟨h1, h2⟩ | rfl
  · omega
  · have : (' ' : Char).toNat = 32 := rfl
    omega

/-- A character whose code differs from a constant is not that constant
(used to refute head-character matches). -/
theorem char_toNat_ne (c d : Char) (h : c.toNat ≠ d.toNat) : c ≠ d :=
  fun hc => h (by rw [hc])

theorem losChar_space_eq (c : Char) (h : losChar c) (hs : pyIsSpaceChar c = true) :
    c = ' ' := by
  by_cases hc : c = ' '
  · exact hc
  · rw [losChar_not_space_char c h hc] at hs
    cases hs

theorem map_eq_self_of_id (l : List Char) (f : Char → Char)
    (h : ∀ a ∈ l, f a = a) : l.map f = l := by
  rw [List.map_congr_left h]
  exact List.map_id' l

theorem dropWhile_eq_self_of_head (p : Char → Bool) (l : List Char)
    (h : ∀ c, l.head? = some c → p c = false) : l.dropWhile p = l := by
  cases l with
  | nil => rfl
  | cons a t =>
      rw [List.dropWhile_cons, if_neg]
      rw [h a rfl]
      exact Bool.false_ne_true

/-- `str.strip()` is the identity on a list whose first and last characters
are not whitespace. -/
theorem pyStrip_eq_self (l : List Char)
    (hh : ∀ c, l.head? = some c → pyIsSpaceChar c = false)
    (hl : ∀ c, l.getLast? = some c → pyIsSpaceChar c = false) :
    pyStrip l = l := by
  unfold pyStrip
  rw [dropWhile_eq_self_of_head _ _ hh]
  rw [dropWhile_eq_self_of_head _ _ (fun c hc => hl c (by rw [← List.head?_reverse]; exact hc))]
  exact List.reverse_reverse l

/-- `truncFirst` is the identity when no suffix matches. -/
theorem truncFirst_eq_self (p : List Char → Bool) (l : List Char)
    (h : ∀ t, t <:+ l → p t = false) : truncFirst p l = l := by
  induction l with
  | nil => rfl
  | cons a t ih =>
      unfold truncFirst
      rw [if_neg (by rw [h (a :: t) (List.suffix_refl _)]; exact Bool.false_ne_true)]
      rw [ih (fun t2 ht2 => h t2 (ht2.trans (List.suffix_cons a t)))]

/-- A prefix of a suffix is a contained sublist. -/
theorem listContainsSub_of_suffix (pat t l : List Char)
    (hsuf : t <:+ l) (hpre : pat.isPrefixOf t = true) :
    listContainsSub pat l = true := by
  induction l with
  | nil =>
      rw [List.suffix_nil.mp hsuf] at hpre
      unfold listContainsSub
      cases pat with
      | nil => rfl
      | cons c cs => cases hpre
  | cons a rest ih =>
      rcases List.suffix_cons_iff.mp hsuf with rfl | hsuf2
      · unfold listContainsSub
        rw [hpre]
        rfl
      · unfold listContainsSub
        rw [ih hsuf2]
        exact Bool.or_true _

theorem not_losChar_small (c : Char) (n : Nat) (hn : c.toNat = n)
    (h1 : n < 97) (h2 : n ≠ 32) : ¬ losChar c := by
  intro h
  rcases h with ⟨ha, hb⟩ | rfl
  · omega
  · have h32 : (' ' : Char).toNat = 32 := rfl
    omega

theorem matchDollarDecimal_false (l : List Char) (hch : ∀ c ∈ l, losChar c) :
    ∀ t, t <:+ l → matchDollarDecimal t = false := by
  intro t hsuf
  cases t with
  | nil => rfl
  | cons c rest =>
      by_contra hcon
      rw [Bool.not_eq_false] at hcon
      simp only [matchDollarDecimal, Bool.and_eq_true] at hcon
      have hc : c = '$' := beq_iff_eq.mp hcon.1.1
      subst hc
      exact not_losChar_small '$' 36 rfl (by omega) (by omega)
        (hch '$' (hsuf.subset (List.mem_cons_self _ _)))

theorem matchDollarInt_false (l : List Char) (hch : ∀ c ∈ l, losChar c) :
    ∀ t, t <:+ l → matchDollarInt t = false := by
  intro t hsuf
  cases t with
  | nil => rfl
  | cons c rest =>
      by_contra hcon
      rw [Bool.not_eq_false] at hcon
      simp only [matchDollarInt, Bool.and_eq_true] at hcon
      have hc : c = '$' := beq_iff_eq.mp hcon.1.1
      subst hc
      exact not_losChar_small '$' 36 rfl (by omega) (by omega)
        (hch '$' (hsuf.subset (List.mem_cons_self _ _)))

theorem matchParenSku_false (l : List Char) (hch : ∀ c ∈ l, losChar c) :
    ∀ t, t <:+ l → matchParenSku t = false := by
  intro t hsuf
  cases t with
  | nil => rfl
  | cons c rest =>
      by_contra hcon
      rw [Bool.not_eq_false] at hcon
      simp only [matchParenSku, Bool.and_eq_true] at hcon
      have hc : c = '(' := beq_iff_eq.mp hcon.1.1
      subst hc
      exact not_losChar_small '(' 40 rfl (by omega) (by omega)
        (hch '(' (hsuf.subset (List.mem_cons_self _ _)))

theorem matchPack_false (l : List Char) (hch : ∀ c ∈ l, losChar c) :
    ∀ t, t <:+ l → matchPack t = false := by
  intro t hsuf
  cases t with
  | nil => rfl
  | cons c1 t2 =>
      cases t2 with
      | nil => rfl
      | cons c2 rest =>
          by_contra hcon
          rw [Bool.not_eq_false] at hcon
          simp only [matchPack, Bool.and_eq_true] at hcon
          have hc : c1 = '-' := beq_iff_eq.mp hcon.1.1.1.1
          subst hc
          exact not_losChar_small '-' 45 rfl (by omega) (by omega)
            (hch '-' (hsuf.subset (List.mem_cons_self _ _)))

theorem matchMinDot_false (l : List Char) (hch : ∀ c ∈ l, losChar c) :
    ∀ t, t <:+ l → matchMinDot t = false := by
  intro t hsuf
  by_contra hcon
  rw [Bool.not_eq_false] at hcon
  unfold matchMinDot at hcon
  rw [Bool.and_eq_true] at hcon
  have hpre := List.isPrefixOf_iff_prefix.mp hcon.1
  have hmem : '-' ∈ t := hpre.subset (by decide)
  exact not_losChar_small '-' 45 rfl (by omega) (by omega) (hch '-' (hsuf.subset hmem))

theorem matchMinimum_false (l : List Char) (hch : ∀ c ∈ l, losChar c) :
    ∀ t, t <:+ l → matchMinimum t = false := by
  intro t hsuf
  by_contra hcon
  rw [Bool.not_eq_false] at hcon
  unfold matchMinimum at hcon
  rw [Bool.and_eq_true] at hcon
  have hdigit := hcon.2
  cases hdrop : t.drop 8 with
  | nil => rw [hdrop] at hdigit; cases hdigit
  | cons d r2 =>
      rw [hdrop] at hdigit
      rw [Bool.and_eq_true] at hdigit
      have hd : 48 ≤ d.toNat ∧ d.toNat ≤ 57 := by
        have := hdigit.1
        unfold pyIsDigitChar at this
        rw [Bool.and_eq_true, decide_eq_true_eq, decide_eq_true_eq] at this
        exact this
      have hmem : d ∈ t := List.drop_subset 8 t (by rw [hdrop]; exact List.mem_cons_self _ _)
      have hlos := hch d (hsuf.subset hmem)
      rcases hlos with ⟨ha, hb⟩ | rfl
      · omega
      · have h32 : (' ' : Char).toNat = 32 := rfl
        omega

theorem matchWholesale_false (l : List Char) (hch : ∀ c ∈ l, losChar c)
    (hws : listContainsSub "wholesale".toList l = false) :
    ∀ t, t <:+ l → matchWholesale t = false := by
  intro t hsuf
  by_contra hcon
  rw [Bool.not_eq_false] at hcon
  unfold matchWholesale at hcon
  rw [Bool.and_eq_true] at hcon
  rw [listContainsSub_of_suffix _ t l hsuf hcon.1] at hws
  cases hws

theorem matchBulk_false (l : List Char) (hch : ∀ c ∈ l, losChar c)
    (hbk : listContainsSub "bulk".toList l = false) :
    ∀ t, t <:+ l → matchBulk t = false := by
  intro t hsuf
  by_contra hcon
  rw [Bool.not_eq_false] at hcon
  unfold matchBulk at hcon
  rw [Bool.and_eq_true] at hcon
  rw [listContainsSub_of_suffix _ t l hsuf hcon.1] at hbk
  cases hbk

theorem stripNamePrefixes_eq_self (l : List Char)
    (h : ∀ p ∈ prefixesToRemove, p.toList.isPrefixOf l = false) :
    stripNamePrefixes l = l := by
  have h1 := h "the " (by decide)
  have h2 := h "a " (by decide)
  have h3 := h "an " (by decide)
  have h4 := h "new " (by decide)
  have h5 := h "original " (by decide)
  have h6 := h "classic " (by decide)
  unfold stripNamePrefixes prefixesToRemove
  simp only [List.foldl_cons, List.foldl_nil, h1, h2, h3, h4, h5, h6,
    Bool.false_eq_true, if_false]

theorem suffix_isSuffixOf_false (l : List Char) (hch : ∀ c ∈ l, losChar c)
    (p : List Char) (c : Char) (hc : c ∈ p) (hbad : ¬ losChar c) :
    p.isSuffixOf l = false := by
  by_contra h
  rw [Bool.not_eq_false] at h
  have hsuf := List.isSuffixOf_iff_suffix.mp h
  exact hbad (hch c (hsuf.subset hc))

theorem stripNameSuffixes_eq_self (l : List Char) (hch : ∀ c ∈ l, losChar c) :
    stripNameSuffixes l = l := by
  have hdash : ¬ losChar '-' := not_losChar_small '-' 45 rfl (by omega) (by omega)
  have hparen : ¬ losChar '(' := not_losChar_small '(' 40 rfl (by omega) (by omega)
  have h1 := suffix_isSuffixOf_false l hch " - new".toList '-' (by decide) hdash
  have h2 := suffix_isSuffixOf_false l hch " - original".toList '-' (by decide) hdash
  have h3 := suffix_isSuffixOf_false l hch " (new)".toList '(' (by decide) hparen
  have h4 := suffix_isSuffixOf_false l hch " (original)".toList '(' (by decide) hparen
  have h5 := suffix_isSuffixOf_false l hch " - limited edition".toList '-' (by decide) hdash
  unfold stripNameSuffixes suffixesToRemove
  simp only [List.foldl_cons, List.foldl_nil, h1, h2, h3, h4, h5,
    Bool.false_eq_true, if_false]

theorem punctToSpace_eq_self (l : List Char) (hch : ∀ c ∈ l, losChar c) :
    punctToSpace l = l := by
  apply map_eq_self_of_id
  intro a ha
  rcases hlos : hch a ha with ⟨h1, h2⟩ | heq
  · rw [if_pos]
    rw [losChar_word a ⟨h1, h2⟩]
    exact Bool.true_or _
  · rw [if_pos]
    rw [heq]
    rfl

theorem collapseWsAux_eq_self (l : List Char)
    (hch : ∀ c ∈ l, losChar c)
    (hdbl : listContainsSub "  ".toList l = false) :
    collapseWsAux false l = l ∧
    (l.head? ≠ some ' ' → collapseWsAux true l = l) := by
  induction l with
  | nil => exact ⟨rfl, fun _ => rfl⟩
  | cons c t ih =>
      have hcht : ∀ x ∈ t, losChar x := fun x hx => hch x (List.mem_cons_of_mem c hx)
      have hdblt : listContainsSub "  ".toList t = false := by
        by_contra hcon
        rw [Bool.not_eq_false] at hcon
        have hall : listContainsSub "  ".toList (c :: t) = true := by
          unfold listContainsSub
          rw [hcon]
          exact Bool.or_true _
        rw [hall] at hdbl
        cases hdbl
      obtain ⟨ih1, ih2⟩ := ih hcht hdblt
      constructor
      · by_cases hsp : pyIsSpaceChar c = true
        · have hceq : c = ' ' := losChar_space_eq c (hch c (List.mem_cons_self _ _)) hsp
          have hth : t.head? ≠ some ' ' := by
            intro hth
            cases t with
            | nil => cases hth
            | cons d r =>
                have hd : d = ' ' := by
                  rw [List.head?_cons] at hth
                  exact Option.some_injective _ hth
                have hall : listContainsSub "  ".toList (c :: d :: r) = true := by
                  unfold listContainsSub
                  have hp : "  ".toList.isPrefixOf (c :: d :: r) = true := by
                    rw [hceq, hd]
                    simp [List.isPrefixOf, show "  ".toList = [' ', ' '] by decide]
                  rw [hp]
                  rfl
                rw [hall] at hdbl
                cases hdbl
          unfold collapseWsAux
          rw [if_pos hsp]
          show (' ' :: collapseWsAux true t) = c :: t
          rw [ih2 hth, hceq]
        · unfold collapseWsAux
          rw [if_neg hsp, ih1]
      · intro hhead
        have hcsp : ¬ (pyIsSpaceChar c = true) := by
          rw [losChar_not_space_char c (hch c (List.mem_cons_self _ _))
            (fun hceq => hhead (by rw [List.head?_cons, hceq]))]
          exact Bool.false_ne_true
        unfold collapseWsAux
        rw [if_neg hcsp, ih1]

theorem collapseWs_eq_self (l : List Char)
    (hch : ∀ c ∈ l, losChar c)
    (hdbl : listContainsSub "  ".toList l = false) :
    collapseWs l = l :=
  (collapseWsAux_eq_self l hch hdbl).1

/-- On a string satisfying `normalizeFixed`, every stage of
`_normalize_name` is the identity. -/
theorem normalizeNameL_fixed (l : List Char)
    (hch : ∀ c ∈ l, losChar c)
    (hh : l.head? ≠ some ' ')
    (hl : l.getLast? ≠ some ' ')
    (hdbl : listContainsSub "  ".toList l = false)
    (hws : listContainsSub "wholesale".toList l = false)
    (hbk : listContainsSub "bulk".toList l = false)
    (hpre : ∀ p ∈ prefixesToRemove, p.toList.isPrefixOf l = false) :
    normalizeNameL l = l := by
  have hstrip : pyStrip l = l := by
    apply pyStrip_eq_self
    · intro c hc
      exact losChar_not_space_char c
        (hch c (List.mem_of_mem_head? (Option.mem_def.mpr hc)))
        (fun hceq => hh (hceq ▸ hc))
    · intro c hc
      have hcmem : c ∈ l := by
        have hrev : c ∈ l.reverse :=
          List.mem_of_mem_head? (Option.mem_def.mpr (by rw [List.head?_reverse]; exact hc))
        exact List.mem_reverse.mp hrev
      exact losChar_not_space_char c (hch c hcmem) (fun hceq => hl (hceq ▸ hc))
  simp only [normalizeNameL]
  rw [map_eq_self_of_id l pyLowerChar (fun a ha => losChar_lower_id a (hch a ha))]
  rw [hstrip]
  rw [truncFirst_eq_self _ l (matchDollarDecimal_false l hch)]
  rw [truncFirst_eq_self _ l (matchDollarInt_false l hch)]
  rw [truncFirst_eq_self _ l (matchMinDot_false l hch)]
  rw [truncFirst_eq_self _ l (matchMinimum_false l hch)]
  rw [truncFirst_eq_self _ l (matchParenSku_false l hch)]
  rw [truncFirst_eq_self _ l (matchPack_false l hch)]
  rw [truncFirst_eq_self _ l (matchWholesale_false l hch hws)]
  rw [truncFirst_eq_self _ l (matchBulk_false l hch hbk)]
  rw [stripNamePrefixes_eq_self l hpre]
  rw [stripNameSuffixes_eq_self l hch]
  rw [punctToSpace_eq_self l hch]
  rw [collapseWs_eq_self l hch hdbl]
  exact hstrip

/-- `_normalize_name` fixes every string satisfying `normalizeFixed`. -/
theorem normalizeName_fixed_point (y : String) (h : normalizeFixed y) :
    normalizeName y = y := by
  obtain ⟨hch, hh, hl, hdbl, hws, hbk, hpre⟩ := h
  by_cases hy : y = ""
  · rw [hy]
    decide
  · unfold normalizeName
    rw [if_neg hy]
    rw [normalizeNameL_fixed y.toList hch hh hl hdbl hws hbk hpre]
    cases y
    rfl

/-- C4, counterexample: normalization is not idempotent.  On
`"minimum. 2"` the first pass misses the `minimum \d+` wholesale pattern
(the dot intervenes) but the punctuation fold then creates `"minimum 2"`,
which the second pass erases entirely. -/
theorem normalizeName_not_idempotent :
    normalizeName "minimum. 2" = "minimum 2" ∧
    normalizeName (normalizeName "minimum. 2") = "" ∧
    normalizeName (normalizeName "minimum. 2") ≠ normalizeName "minimum. 2" := by
  exact ⟨by decide, by decide, by decide⟩

/-- C4 (amended): normalization is idempotent on every input whose
normalized form contains only lowercase letters and single interior spaces,
contains neither `wholesale` nor `bulk`, and does not begin with one of the
six stripped prefixes — but not on all inputs (see
`normalizeName_not_idempotent`). -/
theorem normalizeName_conditionally_idempotent (x : String)
    (h : normalizeFixed (normalizeName x)) :
    normalizeName (normalizeName x) = normalizeName x :=
  normalizeName_fixed_point (normalizeName x) h

/-- Witness for `normalizeName_conditionally_idempotent` at the first
round-trip example. -/
theorem normalizeName_conditionally_idempotent_witness :
    normalizeFixed (normalizeName "Premium T-Shirt - Min. 2 (SKU-123)") ∧
    normalizeName (normalizeName "Premium T-Shirt - Min. 2 (SKU-123)") =
      normalizeName "Premium T-Shirt - Min. 2 (SKU-123)" :=
  ⟨by decide, normalizeName_conditionally_idempotent _ (by decide)⟩

/-! ## Concrete evaluation checks

Small closed evaluations of the embedded functions (the spec round-trip
strings, a per-target classification for each outcome, and the fuzzy
counter pipeline), kept as anonymous sanity checks. -/

example : normalizeName "Premium T-Shirt - Min. 2 (SKU-123)" = "premium t shirt" := by decide

example : normalizeName "The Classic Blue Jeans (New)" = "blue jeans" := by decide

example : normalizeName "minimum. 2" = "minimum 2" := by decide

example : normalizeName "minimum 2" = "" := by decide

example : searchClassifyTarget ["Blue Wool Sweater"] "The Blue Wool Sweater" = .exact := by
  decide

example :
    searchClassifyTarget
      ["alpha bravo charlie delta echo foxtrot golf hotel india"]
      "alpha bravo charlie delta echo foxtrot golf hotel india juliet" =
    .fuzzy "alpha bravo charlie delta echo foxtrot golf hotel india" := by
  decide

example : searchClassifyTarget ["red leather boot"] "red leather boots" = .noMatch := by
  decide

example :
    findFuzzyProductMatches ["red shoe one four five"] ["red shoe one four"] =
      [("red shoe one four five", "red shoe one four")] := by
  decide

example : countMatchingProducts ["red shoe one four"] ["red shoe one four five"] = 1 := by
  decide

example : searchForSpecificProducts
    ["Blue Wool Sweater - https://b.com/products/sweater", "Canvas Tote Bag"]
    ["The Blue Wool Sweater", "Red Leather Boots"] = ["The Blue Wool Sweater"] := by
  decide
